import Mathlib

/-! libmemcached `auto.c`: increment / decrement dispatch.

A shallow embedding of `libmemcached/auto.c`.  Byte strings (`const char *` together
with its `size_t` length) are lists of byte values; a `char` array read as a C string
ends at its first NUL byte or at the end of the list.  The collaborators that `auto.c`
calls but does not define (hashing, key test, transport) are fields of `Collaborators`;
every call of the router or the transport is recorded in a trace.  Header constants
that `auto.c` only names are fields of `Constants`.
-/

namespace Auto

/-! ## Statuses, events, client handle -/

/-- The enumerators of `memcached_return_t` that `auto.c` names; every other
enumerator a collaborator may report is `MEMCACHED_OTHER code`. -/
inductive memcached_return_t where
  | MEMCACHED_SUCCESS
  | MEMCACHED_WRITE_FAILURE
  | MEMCACHED_PROTOCOL_ERROR
  | MEMCACHED_NOTFOUND
  | MEMCACHED_NO_SERVERS
  | MEMCACHED_BAD_KEY_PROVIDED
  | MEMCACHED_OTHER (code : Nat)
  deriving DecidableEq, Repr

open memcached_return_t

/-- One call of the router or of the transport, in program order. -/
inductive Event where
  /-- `memcached_generate_hash_with_redistribution(ptr, master_key, master_key_length)` -/
  | hash (master_key : List Nat)
  /-- `memcached_do(instance, buffer, send_length, true)` -/
  | send (server : Nat) (bytes : List Nat)
  /-- `memcached_vdo(instance, vector, 3, true)` -/
  | vsend (server : Nat) (segments : List (List Nat))
  /-- `memcached_response(instance, buffer, size, NULL)` -/
  | recv (server : Nat) (size : Nat)
  /-- `memcached_io_reset(instance)` -/
  | reset (server : Nat)
  deriving DecidableEq, Repr

/-- The fields of `memcached_st` that `auto.c` reads.  `prefix_key_length` is the
length of `prefix_key`; `number_of_hosts` is what `memcached_server_count` returns. -/
structure memcached_st where
  no_reply : Bool
  verify_key : Bool
  binary_protocol : Bool
  prefix_key : List Nat
  number_of_hosts : Nat
  deriving DecidableEq, Repr

/-- Constants of the library headers that `auto.c` names but does not define. -/
structure Constants where
  MEMCACHED_DEFAULT_COMMAND_SIZE : Nat
  MEMCACHED_EXPIRATION_NOT_ADD : Nat
  /-- largest key length the text protocol accepts -/
  MEMCACHED_MAX_KEY_TEXT : Nat
  /-- largest key length the binary protocol accepts -/
  MEMCACHED_MAX_KEY_BINARY : Nat
  PROTOCOL_BINARY_CMD_INCREMENT : Nat
  PROTOCOL_BINARY_CMD_DECREMENT : Nat
  PROTOCOL_BINARY_CMD_INCREMENTQ : Nat
  PROTOCOL_BINARY_CMD_DECREMENTQ : Nat
  deriving DecidableEq, Repr

/-- The functions `auto.c` calls and does not define.  A server instance is
identified by its index, which is what `memcached_server_instance_fetch` is given. -/
structure Collaborators where
  /-- `memcached_key_test` on the single operand key -/
  memcached_key_test : List Nat → memcached_return_t
  /-- Modelled from the spec: `memcached_generate_hash_with_redistribution` is not among
  the sources.  Spec, server router: for a fixed cluster configuration and a fixed
  routing key the same instance is selected on every call; the router is therefore a
  function of the client handle and of the routing key it is given. -/
  memcached_generate_hash_with_redistribution : memcached_st → List Nat → Nat
  /-- status of `memcached_do(instance, bytes, length, true)` -/
  memcached_do : Nat → List Nat → memcached_return_t
  /-- status of `memcached_vdo(instance, vector, 3, true)` -/
  memcached_vdo : Nat → List (List Nat) → memcached_return_t
  /-- `memcached_response(instance, buffer, size, NULL)` on a character buffer:
  the status and the contents of the buffer afterwards, from its contents before -/
  memcached_response : Nat → List Nat → Nat → memcached_return_t × List Nat
  /-- `memcached_response(instance, (char*)value, sizeof(*value), NULL)`: the status
  and the 64-bit number held by the sink afterwards, from the number held before -/
  memcached_response_value : Nat → Nat → memcached_return_t × Nat

/-- What a call leaves behind: the returned status, the contents of `*value`
and the router and transport calls made. -/
structure Outcome where
  rc : memcached_return_t
  value : Nat
  trace : List Event
  deriving DecidableEq, Repr

/-! ## C library functions -/

/-- The bytes of an ASCII string literal. -/
def str (s : String) : List Nat := s.toList.map Char.toNat

/-- The C string held by a `char` array: the bytes before the first NUL. -/
def cstr (s : List Nat) : List Nat := s.takeWhile (fun c => c != 0)

/-- The result of `strncmp(a, b, n) == 0`. -/
def strncmp_eq (a b : List Nat) (n : Nat) : Bool := (cstr a).take n == (cstr b).take n

/-- A `size_t` converted to `int` (32 bits, two's complement). -/
def to_int (n : Nat) : Int :=
  if n % 2 ^ 32 < 2 ^ 31 then ((n % 2 ^ 32 : Nat) : Int) else ((n % 2 ^ 32 : Nat) : Int) - 2 ^ 32

/-- The conversion `%.*s` of printf: the string up to its first NUL, cut to the
precision; a negative precision counts as none. -/
def fmt_precision_s (precision : Int) (s : List Nat) : List Nat :=
  if precision < 0 then cstr s else (cstr s).take precision.toNat

/-- Decimal digits of `n` in front of `acc`, most significant first. -/
def decimal_fuel : Nat → Nat → List Nat → List Nat
  | 0, _, acc => acc
  | fuel + 1, n, acc =>
    if n < 10 then (48 + n) :: acc else decimal_fuel fuel (n / 10) ((48 + n % 10) :: acc)

/-- The conversion `%" PRIu64 "` of printf: the decimal numeral of `n`. -/
def decimal (n : Nat) : List Nat := decimal_fuel (n + 1) n []

/-- The function `isspace` of the C locale. -/
def isspace (c : Nat) : Bool := c == 32 || (9 ≤ c && c ≤ 13)

/-- The function `isdigit`. -/
def isdigit (c : Nat) : Bool := 48 ≤ c && c ≤ 57

/-- The value of the longest prefix of decimal digits, continuing from `acc`. -/
def parse_digits : Nat → List Nat → Nat
  | acc, [] => acc
  | acc, c :: t => if isdigit c then parse_digits (acc * 10 + (c - 48)) t else acc

/-- The function `strtoull(s, NULL, 10)`: white space is skipped, one sign is
accepted, the digits that follow are read; a value that does not fit 64 bits
gives `ULLONG_MAX`, a minus sign negates modulo 2^64, no digit gives 0. -/
def strtoull (s : List Nat) : Nat :=
  let s1 := s.dropWhile isspace
  let negative : Bool := s1.head? == some 45
  let s2 := if s1.head? == some 45 || s1.head? == some 43 then s1.tail else s1
  let v := parse_digits 0 s2
  if 2 ^ 64 ≤ v then 2 ^ 64 - 1
  else if negative then (2 ^ 64 - v) % 2 ^ 64
  else v

/-- The bytes of `x` as a `w`-byte big-endian (network order) integer. -/
def be : Nat → Nat → List Nat
  | 0, _ => []
  | w + 1, x => (x / 256 ^ w) % 256 :: be w x

/-- The number a big-endian byte string stands for. -/
def be_value (bs : List Nat) : Nat := bs.foldl (fun acc b => acc * 256 + b) 0

/-! ## The text protocol -/

/-- The request line `snprintf` formats in `text_incr_decr`
(format `"%s %.*s%.*s %" PRIu64 "%s\r\n"`). -/
def text_request (ptr : memcached_st) (verb key : List Nat) (offset : Nat) : List Nat :=
  cstr verb ++ [32]
    ++ fmt_precision_s (to_int ptr.prefix_key.length) ptr.prefix_key
    ++ fmt_precision_s (to_int key.length) key
    ++ [32] ++ decimal (offset % 2 ^ 64)
    ++ cstr (if ptr.no_reply then str " noreply" else str "")
    ++ [13, 10]

/-- Lines 59 to 78 of `auto.c`: the status and the value read off the response buffer. -/
def text_classify (buffer : List Nat) : memcached_return_t × Nat :=
  if strncmp_eq buffer (str "ERROR\r\n") 7 then (MEMCACHED_PROTOCOL_ERROR, 0)
  else if strncmp_eq buffer (str "CLIENT_ERROR\r\n") 14 then (MEMCACHED_PROTOCOL_ERROR, 0)
  else if strncmp_eq buffer (str "NOT_FOUND\r\n") 11 then (MEMCACHED_NOTFOUND, 0)
  else (MEMCACHED_SUCCESS, strtoull buffer)

/-- The function `text_incr_decr`. -/
def text_incr_decr (K : Constants) (E : Collaborators) (ptr : memcached_st)
    (verb master_key key : List Nat) (offset : Nat) (value : Nat) : Outcome :=
  if ptr.number_of_hosts = 0 then ⟨MEMCACHED_NO_SERVERS, value, []⟩
  else if ptr.verify_key && (E.memcached_key_test key == MEMCACHED_BAD_KEY_PROVIDED) then
    ⟨MEMCACHED_BAD_KEY_PROVIDED, value, []⟩
  else
    let server_key := E.memcached_generate_hash_with_redistribution ptr master_key
    let buffer := text_request ptr verb key offset
    -- `send_length` is the length of the whole line; beyond `INT_MAX` snprintf reports an error
    if K.MEMCACHED_DEFAULT_COMMAND_SIZE ≤ buffer.length ∨ 2 ^ 31 ≤ buffer.length then
      ⟨MEMCACHED_WRITE_FAILURE, value, [Event.hash master_key]⟩
    else
      let rc := E.memcached_do server_key buffer
      if ptr.no_reply ∨ rc ≠ MEMCACHED_SUCCESS then
        ⟨rc, value, [Event.hash master_key, Event.send server_key buffer]⟩
      else
        let response := E.memcached_response server_key buffer K.MEMCACHED_DEFAULT_COMMAND_SIZE
        ⟨(text_classify response.2).1, (text_classify response.2).2,
          [Event.hash master_key, Event.send server_key buffer,
           Event.recv server_key K.MEMCACHED_DEFAULT_COMMAND_SIZE]⟩

/-! ## The binary protocol -/

/-- Modelled from the spec: the constants `PROTOCOL_BINARY_REQ` and
`PROTOCOL_BINARY_RAW_BYTES` of protocol_binary.h, which is not among the sources
(spec, binary wire format: magic = 0x80, datatype = 0x00). -/
def PROTOCOL_BINARY_REQ : Nat := 0x80

/-- Modelled from the spec: see `PROTOCOL_BINARY_REQ`. -/
def PROTOCOL_BINARY_RAW_BYTES : Nat := 0x00

/-- The fields of `protocol_binary_request_incr` (header, then the body of the
increment request), each held as the number it stands for. -/
structure protocol_binary_request_incr where
  magic : Nat
  opcode : Nat
  keylen : Nat
  extlen : Nat
  datatype : Nat
  reserved : Nat
  bodylen : Nat
  opq : Nat
  cas : Nat
  delta : Nat
  initial : Nat
  expiration : Nat
  deriving DecidableEq, Repr

/-- The request after `memset(&request, 0, sizeof(request))`. -/
def request_zero : protocol_binary_request_incr :=
  ⟨0, 0, 0, 0, 0, 0, 0, 0, 0, 0, 0, 0⟩

/-- Modelled from the spec: the declaration of `protocol_binary_request_incr` is in
protocol_binary.h, which is not among the sources.  Spec, binary wire format:
magic (1 byte), opcode (1), keylen (2), extlen (1), datatype (1), reserved (2),
bodylen (4), opaque (4), CAS (8), then delta (8), initial (8), expiration (4); the
fields that went through `htons`, `htonl`, `htonll` lie in network byte order. -/
def request_bytes (r : protocol_binary_request_incr) : List Nat :=
  be 1 r.magic ++ be 1 r.opcode ++ be 2 r.keylen ++ be 1 r.extlen ++ be 1 r.datatype
    ++ be 2 r.reserved ++ be 4 r.bodylen ++ be 4 r.opq ++ be 8 r.cas
    ++ be 8 r.delta ++ be 8 r.initial ++ be 4 r.expiration

/-- The opcode after lines 103 to 109 of `auto.c`. -/
def quiet_cmd (K : Constants) (no_reply : Bool) (cmd : Nat) : Nat :=
  if no_reply then
    let cmd1 := if cmd = K.PROTOCOL_BINARY_CMD_DECREMENT then K.PROTOCOL_BINARY_CMD_DECREMENTQ else cmd
    if cmd1 = K.PROTOCOL_BINARY_CMD_INCREMENT then K.PROTOCOL_BINARY_CMD_INCREMENTQ else cmd1
  else cmd

/-- The request `binary_incr_decr` fills in, lines 111 to 120 of `auto.c`. -/
def binary_request (K : Constants) (ptr : memcached_st) (cmd : Nat) (key : List Nat)
    (offset initial expiration : Nat) : protocol_binary_request_incr :=
  { request_zero with
    magic := PROTOCOL_BINARY_REQ
    opcode := quiet_cmd K ptr.no_reply cmd
    keylen := (key.length + ptr.prefix_key.length) % 2 ^ 16
    extlen := 20
    datatype := PROTOCOL_BINARY_RAW_BYTES
    bodylen := (key.length + ptr.prefix_key.length + 20) % 2 ^ 32
    delta := offset
    initial := initial
    expiration := expiration % 2 ^ 32 }

/-- The three segments of `vector`, lines 122 to 128 of `auto.c`: the bytes of the
request, the key prefix, the operand key. -/
def binary_vector (K : Constants) (ptr : memcached_st) (cmd : Nat) (key : List Nat)
    (offset initial expiration : Nat) : List (List Nat) :=
  [request_bytes (binary_request K ptr cmd key offset initial expiration), ptr.prefix_key, key]

/-- The function `binary_incr_decr`. -/
def binary_incr_decr (K : Constants) (E : Collaborators) (ptr : memcached_st) (cmd : Nat)
    (master_key key : List Nat) (offset initial expiration : Nat) (value : Nat) : Outcome :=
  if ptr.number_of_hosts = 0 then ⟨MEMCACHED_NO_SERVERS, value, []⟩
  else
    let server_key := E.memcached_generate_hash_with_redistribution ptr master_key
    let vector := binary_vector K ptr cmd key offset initial expiration
    let rc := E.memcached_vdo server_key vector
    if rc ≠ MEMCACHED_SUCCESS then
      ⟨if rc = MEMCACHED_SUCCESS then MEMCACHED_WRITE_FAILURE else rc, value,
        [Event.hash master_key, Event.vsend server_key vector, Event.reset server_key]⟩
    else if ptr.no_reply then
      ⟨MEMCACHED_SUCCESS, value, [Event.hash master_key, Event.vsend server_key vector]⟩
    else
      let response := E.memcached_response_value server_key value
      ⟨response.1, response.2,
        [Event.hash master_key, Event.vsend server_key vector, Event.recv server_key 8]⟩

/-! ## The public operations -/

/-- Modelled from the spec: `memcached_validate_key_length` is defined in common.h,
which is not among the sources.  Spec, key validator: it fails when `key_length` is
zero or exceeds the maximum of the protocol in use, and has no side effect. -/
def memcached_validate_key_length (K : Constants) (key_length : Nat) (binary : Bool) :
    memcached_return_t :=
  if key_length = 0 ∨
      (if binary then K.MEMCACHED_MAX_KEY_BINARY else K.MEMCACHED_MAX_KEY_TEXT) < key_length then
    MEMCACHED_BAD_KEY_PROVIDED
  else MEMCACHED_SUCCESS

/-- The function `memcached_increment_by_key`. -/
def memcached_increment_by_key (K : Constants) (E : Collaborators) (ptr : memcached_st)
    (master_key key : List Nat) (offset : Nat) (value : Nat) : Outcome :=
  let rc := memcached_validate_key_length K key.length ptr.binary_protocol
  if rc ≠ MEMCACHED_SUCCESS then ⟨rc, value, []⟩
  else if ptr.binary_protocol then
    binary_incr_decr K E ptr K.PROTOCOL_BINARY_CMD_INCREMENT master_key key
      offset 0 K.MEMCACHED_EXPIRATION_NOT_ADD value
  else text_incr_decr K E ptr (str "incr") master_key key offset value

/-- The function `memcached_decrement_by_key`. -/
def memcached_decrement_by_key (K : Constants) (E : Collaborators) (ptr : memcached_st)
    (master_key key : List Nat) (offset : Nat) (value : Nat) : Outcome :=
  let rc := memcached_validate_key_length K key.length ptr.binary_protocol
  if rc ≠ MEMCACHED_SUCCESS then ⟨rc, value, []⟩
  else if ptr.binary_protocol then
    binary_incr_decr K E ptr K.PROTOCOL_BINARY_CMD_DECREMENT master_key key
      offset 0 K.MEMCACHED_EXPIRATION_NOT_ADD value
  else text_incr_decr K E ptr (str "decr") master_key key offset value

/-- The function `memcached_increment`; `offset` is a `uint32_t`, so what reaches
`memcached_increment_by_key` (whose `offset` is a `uint64_t`) is the delta modulo 2^32. -/
def memcached_increment (K : Constants) (E : Collaborators) (ptr : memcached_st)
    (key : List Nat) (offset : Nat) (value : Nat) : Outcome :=
  memcached_increment_by_key K E ptr key key (offset % 2 ^ 32) value

/-- The function `memcached_decrement`; `offset` is a `uint32_t`, so what reaches
`memcached_decrement_by_key` (whose `offset` is a `uint64_t`) is the delta modulo 2^32. -/
def memcached_decrement (K : Constants) (E : Collaborators) (ptr : memcached_st)
    (key : List Nat) (offset : Nat) (value : Nat) : Outcome :=
  memcached_decrement_by_key K E ptr key key (offset % 2 ^ 32) value

/-- The function `memcached_increment_with_initial_by_key`; `expiration` is a `time_t`,
converted to `uint32_t` on the way to `binary_incr_decr`. -/
def memcached_increment_with_initial_by_key (K : Constants) (E : Collaborators)
    (ptr : memcached_st) (master_key key : List Nat) (offset initial : Nat)
    (expiration : Int) (value : Nat) : Outcome :=
  let rc := memcached_validate_key_length K key.length ptr.binary_protocol
  if rc ≠ MEMCACHED_SUCCESS then ⟨rc, value, []⟩
  else if ptr.binary_protocol then
    binary_incr_decr K E ptr K.PROTOCOL_BINARY_CMD_INCREMENT master_key key
      offset initial (expiration % 2 ^ 32).toNat value
  else ⟨MEMCACHED_PROTOCOL_ERROR, value, []⟩

/-- The function `memcached_decrement_with_initial_by_key`. -/
def memcached_decrement_with_initial_by_key (K : Constants) (E : Collaborators)
    (ptr : memcached_st) (master_key key : List Nat) (offset initial : Nat)
    (expiration : Int) (value : Nat) : Outcome :=
  let rc := memcached_validate_key_length K key.length ptr.binary_protocol
  if rc ≠ MEMCACHED_SUCCESS then ⟨rc, value, []⟩
  else if ptr.binary_protocol then
    binary_incr_decr K E ptr K.PROTOCOL_BINARY_CMD_DECREMENT master_key key
      offset initial (expiration % 2 ^ 32).toNat value
  else ⟨MEMCACHED_PROTOCOL_ERROR, value, []⟩

/-- The function `memcached_increment_with_initial`. -/
def memcached_increment_with_initial (K : Constants) (E : Collaborators)
    (ptr : memcached_st) (key : List Nat) (offset initial : Nat)
    (expiration : Int) (value : Nat) : Outcome :=
  memcached_increment_with_initial_by_key K E ptr key key offset initial expiration value

/-- The function `memcached_decrement_with_initial`. -/
def memcached_decrement_with_initial (K : Constants) (E : Collaborators)
    (ptr : memcached_st) (key : List Nat) (offset initial : Nat)
    (expiration : Int) (value : Nat) : Outcome :=
  memcached_decrement_with_initial_by_key K E ptr key key offset initial expiration value

/-! ## A concrete configuration -/

/-- The values the constants have in the headers of libmemcached (constants.h,
protocol_binary.h, common.h), which are not among the sources; the theorems take the
constants as parameters, the concrete instances use these values. -/
def library_constants : Constants where
  MEMCACHED_DEFAULT_COMMAND_SIZE := 350
  MEMCACHED_EXPIRATION_NOT_ADD := 0xffffffff
  MEMCACHED_MAX_KEY_TEXT := 250
  MEMCACHED_MAX_KEY_BINARY := 0xffff
  PROTOCOL_BINARY_CMD_INCREMENT := 0x05
  PROTOCOL_BINARY_CMD_DECREMENT := 0x06
  PROTOCOL_BINARY_CMD_INCREMENTQ := 0x15
  PROTOCOL_BINARY_CMD_DECREMENTQ := 0x16

/-! ## Reaching the stages of the text path -/

/-- The text request is sent: the cluster is not empty, the key test (when switched
on) does not reject the operand key, and the formatted line fits the command buffer. -/
def TextSends (K : Constants) (E : Collaborators) (ptr : memcached_st)
    (verb key : List Nat) (offset : Nat) : Prop :=
  ptr.number_of_hosts ≠ 0 ∧
  (ptr.verify_key && (E.memcached_key_test key == MEMCACHED_BAD_KEY_PROVIDED)) = false ∧
  (text_request ptr verb key offset).length < K.MEMCACHED_DEFAULT_COMMAND_SIZE ∧
  (text_request ptr verb key offset).length < 2 ^ 31

instance (K : Constants) (E : Collaborators) (ptr : memcached_st)
    (verb key : List Nat) (offset : Nat) : Decidable (TextSends K E ptr verb key offset) := by
  unfold TextSends; infer_instance

/-- The response buffer of a text call: what `memcached_response` leaves in the
buffer that held the request line. -/
def text_response (K : Constants) (E : Collaborators) (ptr : memcached_st)
    (verb master_key key : List Nat) (offset : Nat) : List Nat :=
  (E.memcached_response (E.memcached_generate_hash_with_redistribution ptr master_key)
    (text_request ptr verb key offset) K.MEMCACHED_DEFAULT_COMMAND_SIZE).2

/-! ## Reading traces, the line of the specification, stubs -/

/-- The lines handed to `memcached_do`, in order. -/
def sent_lines : List Event → List (List Nat)
  | [] => []
  | Event.send _ bytes :: t => bytes :: sent_lines t
  | _ :: t => sent_lines t

/-- The request line as the specification writes it:
`<verb> <prefix><key> <delta>[ noreply]\r\n`. -/
def text_line (verb pre key : List Nat) (delta : Nat) (quiet : Bool) : List Nat :=
  verb ++ str " " ++ pre ++ key ++ str " " ++ decimal delta
    ++ (if quiet then str " noreply" else []) ++ str "\r\n"

/-- A key test that accepts the keys made of printable, non-blank ASCII bytes. -/
def graph_key_test (key : List Nat) : memcached_return_t :=
  if key.all (fun c => 33 ≤ c && c ≤ 126) then MEMCACHED_SUCCESS else MEMCACHED_BAD_KEY_PROVIDED

/-- Stub collaborators: the key is hashed to the sum of its bytes modulo the number
of hosts, every write reports `write_rc`, the reader reports `read_rc` and leaves
`reply` in a character buffer, `reply_value` in the 8-byte sink. -/
def stub (write_rc read_rc : memcached_return_t) (reply : List Nat) (reply_value : Nat) :
    Collaborators where
  memcached_key_test := graph_key_test
  memcached_generate_hash_with_redistribution := fun ptr k => k.sum % ptr.number_of_hosts
  memcached_do := fun _ _ => write_rc
  memcached_vdo := fun _ _ => write_rc
  memcached_response := fun _ _ _ => (read_rc, reply)
  memcached_response_value := fun _ _ => (read_rc, reply_value)

/-- A text-mode client with three hosts and the key prefix `ns:`. -/
def text_client : memcached_st :=
  { no_reply := false, verify_key := false, binary_protocol := false,
    prefix_key := str "ns:", number_of_hosts := 3 }

/-- A binary-mode client with three hosts and the key prefix `ns:`. -/
def binary_client : memcached_st := { text_client with binary_protocol := true }

/-! ## Reading the binary trace, the frame of the specification, the operations -/

/-- The segment lists handed to `memcached_vdo`, in order. -/
def sent_vectors : List Event → List (List (List Nat))
  | [] => []
  | Event.vsend _ segments :: t => segments :: sent_vectors t
  | _ :: t => sent_vectors t

/-- The opcode byte (second byte of the first segment) of every vectored write. -/
def sent_opcodes (trace : List Event) : List Nat :=
  (sent_vectors trace).map (fun segments => (segments.headD []).getD 1 0)

/-- The number of calls of the response reader. -/
def recv_count : List Event → Nat
  | [] => 0
  | Event.recv _ _ :: t => recv_count t + 1
  | _ :: t => recv_count t

/-- The 44 bytes of an increment or decrement request as the specification lays them
out: magic 0x80, opcode, key length (2 bytes), extras length 20, data type 0x00,
reserved 0 (2 bytes), body length = key length + 20 (4 bytes), opaque 0 (4 bytes),
CAS 0 (8 bytes), then delta (8 bytes), initial (8 bytes), expiration (4 bytes), every
integer big-endian. -/
def binary_frame (opcode keylen delta initial expiration : Nat) : List Nat :=
  [0x80, opcode] ++ be 2 keylen ++ [20, 0x00] ++ [0, 0] ++ be 4 (keylen + 20)
    ++ [0, 0, 0, 0] ++ [0, 0, 0, 0, 0, 0, 0, 0]
    ++ be 8 delta ++ be 8 initial ++ be 4 expiration

/-- The four opcodes are distinct values of `uint8_t`. -/
def Constants.opcodes_distinct (K : Constants) : Prop :=
  [K.PROTOCOL_BINARY_CMD_INCREMENT, K.PROTOCOL_BINARY_CMD_DECREMENT,
    K.PROTOCOL_BINARY_CMD_INCREMENTQ, K.PROTOCOL_BINARY_CMD_DECREMENTQ].Nodup ∧
  K.PROTOCOL_BINARY_CMD_INCREMENT < 256 ∧ K.PROTOCOL_BINARY_CMD_DECREMENT < 256 ∧
  K.PROTOCOL_BINARY_CMD_INCREMENTQ < 256 ∧ K.PROTOCOL_BINARY_CMD_DECREMENTQ < 256

instance (K : Constants) : Decidable K.opcodes_distinct := by
  unfold Constants.opcodes_distinct; infer_instance

/-- The opcode selection of the specification: a function of the verb and of the
quiet flag. -/
def effectiveOpcode (K : Constants) (decrement quiet : Bool) : Nat :=
  match decrement, quiet with
  | false, false => K.PROTOCOL_BINARY_CMD_INCREMENT
  | false, true => K.PROTOCOL_BINARY_CMD_INCREMENTQ
  | true, false => K.PROTOCOL_BINARY_CMD_DECREMENT
  | true, true => K.PROTOCOL_BINARY_CMD_DECREMENTQ

/-- The public operations of `auto.c`. -/
inductive PublicOp where
  | increment
  | decrement
  | increment_by_key
  | decrement_by_key
  | increment_with_initial
  | decrement_with_initial
  | increment_with_initial_by_key
  | decrement_with_initial_by_key
  deriving DecidableEq, Repr

namespace PublicOp

/-- A call of the public operation; an argument the operation does not take is not
used. -/
def call (op : PublicOp) (K : Constants) (E : Collaborators) (ptr : memcached_st)
    (master_key key : List Nat) (offset initial : Nat) (expiration : Int) (value : Nat) :
    Outcome :=
  match op with
  | increment => memcached_increment K E ptr key offset value
  | decrement => memcached_decrement K E ptr key offset value
  | increment_by_key => memcached_increment_by_key K E ptr master_key key offset value
  | decrement_by_key => memcached_decrement_by_key K E ptr master_key key offset value
  | increment_with_initial =>
    memcached_increment_with_initial K E ptr key offset initial expiration value
  | decrement_with_initial =>
    memcached_decrement_with_initial K E ptr key offset initial expiration value
  | increment_with_initial_by_key =>
    memcached_increment_with_initial_by_key K E ptr master_key key offset initial expiration value
  | decrement_with_initial_by_key =>
    memcached_decrement_with_initial_by_key K E ptr master_key key offset initial expiration value

/-- The operation decrements. -/
def is_decrement : PublicOp → Bool
  | decrement | decrement_by_key | decrement_with_initial | decrement_with_initial_by_key => true
  | _ => false

/-- The operation is one of the with_initial forms. -/
def with_initial : PublicOp → Bool
  | increment_with_initial | decrement_with_initial | increment_with_initial_by_key
  | decrement_with_initial_by_key => true
  | _ => false

/-- The operation takes a routing key of its own. -/
def by_key : PublicOp → Bool
  | increment_by_key | decrement_by_key | increment_with_initial_by_key
  | decrement_with_initial_by_key => true
  | _ => false

/-- The key the operation routes on. -/
def routing_key (op : PublicOp) (master_key key : List Nat) : List Nat :=
  if op.by_key then master_key else key

/-- The opcode the operation passes to `binary_incr_decr`. -/
def cmd (op : PublicOp) (K : Constants) : Nat :=
  if op.is_decrement then K.PROTOCOL_BINARY_CMD_DECREMENT else K.PROTOCOL_BINARY_CMD_INCREMENT

/-- The initial value the operation passes to `binary_incr_decr`. -/
def initial_arg (op : PublicOp) (initial : Nat) : Nat :=
  if op.with_initial then initial else 0

/-- The expiration the operation passes to `binary_incr_decr`. -/
def expiration_arg (op : PublicOp) (K : Constants) (expiration : Int) : Nat :=
  if op.with_initial then (expiration % 2 ^ 32).toNat else K.MEMCACHED_EXPIRATION_NOT_ADD

/-- The width in bits of the delta parameter of the operation: `uint32_t` for
`memcached_increment` and `memcached_decrement`, `uint64_t` for the other forms. -/
def delta_bits : PublicOp → Nat
  | increment | decrement => 32
  | _ => 64

/-- The delta the operation passes to `binary_incr_decr` or `text_incr_decr`. -/
def offset_arg (op : PublicOp) (offset : Nat) : Nat :=
  match op with
  | increment | decrement => offset % 2 ^ 32
  | _ => offset

end PublicOp

/-- An empty cluster in text mode. -/
def empty_text_client : memcached_st := { text_client with number_of_hosts := 0 }

/-! ## Further readers of the trace and of the request -/

/-- The number of writes handed to the transport (`memcached_do`, `memcached_vdo`). -/
def send_count : List Event → Nat
  | [] => 0
  | Event.send _ _ :: t => send_count t + 1
  | Event.vsend _ _ :: t => send_count t + 1
  | _ :: t => send_count t

/-- The server instance of every transport call (write, read, reset), in order. -/
def servers : List Event → List Nat
  | [] => []
  | Event.hash _ :: t => servers t
  | Event.send server _ :: t => server :: servers t
  | Event.vsend server _ :: t => server :: servers t
  | Event.recv server _ :: t => server :: servers t
  | Event.reset server :: t => server :: servers t

/-- The calls of the response reader: the server instance and the width of the sink. -/
def reads : List Event → List (Nat × Nat)
  | [] => []
  | Event.recv server size :: t => (server, size) :: reads t
  | _ :: t => reads t

/-- The key-length field of a request: bytes 2 and 3, big-endian. -/
def frame_keylen (frame : List Nat) : Nat := be_value ((frame.drop 2).take 2)

/-- The body-length field of a request: bytes 8 to 11, big-endian. -/
def frame_bodylen (frame : List Nat) : Nat := be_value ((frame.drop 8).take 4)

/-- The delta field of a request: bytes 24 to 31, big-endian. -/
def frame_delta (frame : List Nat) : Nat := be_value ((frame.drop 24).take 8)

/-- The initial-value field of a request: bytes 32 to 39, big-endian. -/
def frame_initial (frame : List Nat) : Nat := be_value ((frame.drop 32).take 8)

/-- The expiration field of a request: bytes 40 to 43, big-endian. -/
def frame_expiration (frame : List Nat) : Nat := be_value ((frame.drop 40).take 4)

/-- After the leading white space the line shows a decimal digit, or a sign followed
by a decimal digit. -/
def starts_numeral (s : List Nat) : Bool :=
  match s.dropWhile isspace with
  | [] => false
  | c :: t => isdigit c || ((c == 43 || c == 45) && (t.head?.any isdigit))

/-- The first segment (header and extras) of every vectored write. -/
def sent_frames (trace : List Event) : List (List Nat) :=
  (sent_vectors trace).map (fun segments => segments.headD [])

/-- The calls of the transport (write, read, reset): the trace without the hashing. -/
def transport_calls : List Event → List Event
  | [] => []
  | Event.hash _ :: t => transport_calls t
  | e :: t => e :: transport_calls t

/-! # Theorems -/

/-! ## Lemmas: string literals -/

theorem str_ERROR : str "ERROR\r\n" = [69, 82, 82, 79, 82, 13, 10] := by decide

theorem str_CLIENT_ERROR :
    str "CLIENT_ERROR\r\n" = [67, 76, 73, 69, 78, 84, 95, 69, 82, 82, 79, 82, 13, 10] := by
  decide

theorem str_NOT_FOUND :
    str "NOT_FOUND\r\n" = [78, 79, 84, 95, 70, 79, 85, 78, 68, 13, 10] := by decide

theorem str_incr : str "incr" = [105, 110, 99, 114] := by decide

theorem str_decr : str "decr" = [100, 101, 99, 114] := by decide

theorem str_noreply : str " noreply" = [32, 110, 111, 114, 101, 112, 108, 121] := by decide

theorem str_empty : str "" = [] := by decide

/-! ## Lemmas: the text path -/

/-- A text call that sends, is not quiet and whose send succeeds goes through the
decoder: its status and value are read off the response buffer. -/
theorem text_incr_decr_decodes (K : Constants) (E : Collaborators) (ptr : memcached_st)
    (verb master_key key : List Nat) (offset value : Nat)
    (hsends : TextSends K E ptr verb key offset)
    (hquiet : ptr.no_reply = false)
    (hsend : E.memcached_do (E.memcached_generate_hash_with_redistribution ptr master_key)
      (text_request ptr verb key offset) = MEMCACHED_SUCCESS) :
    text_incr_decr K E ptr verb master_key key offset value =
      ⟨(text_classify (text_response K E ptr verb master_key key offset)).1,
       (text_classify (text_response K E ptr verb master_key key offset)).2,
       [Event.hash master_key,
        Event.send (E.memcached_generate_hash_with_redistribution ptr master_key)
          (text_request ptr verb key offset),
        Event.recv (E.memcached_generate_hash_with_redistribution ptr master_key)
          K.MEMCACHED_DEFAULT_COMMAND_SIZE]⟩ := by
  obtain ⟨h1, h2, h3, h4⟩ := hsends
  unfold text_incr_decr
  rw [if_neg h1, h2]
  simp only [Bool.false_eq_true, if_false]
  rw [if_neg (by omega)]
  simp only [hsend, hquiet, Bool.false_eq_true, ne_eq, not_true_eq_false, or_self, if_false]
  rfl

theorem classify_ERROR (buffer : List Nat) (h : str "ERROR\r\n" <+: buffer) :
    text_classify buffer = (MEMCACHED_PROTOCOL_ERROR, 0) := by
  obtain ⟨rest, rfl⟩ := h
  simp [text_classify, strncmp_eq, cstr, str_ERROR, List.takeWhile_cons]

theorem classify_CLIENT_ERROR (buffer : List Nat) (h : str "CLIENT_ERROR\r\n" <+: buffer) :
    text_classify buffer = (MEMCACHED_PROTOCOL_ERROR, 0) := by
  obtain ⟨rest, rfl⟩ := h
  simp [text_classify, strncmp_eq, cstr, str_ERROR, str_CLIENT_ERROR, List.takeWhile_cons]

theorem classify_NOT_FOUND (buffer : List Nat) (h : str "NOT_FOUND\r\n" <+: buffer) :
    text_classify buffer = (MEMCACHED_NOTFOUND, 0) := by
  obtain ⟨rest, rfl⟩ := h
  simp [text_classify, strncmp_eq, cstr, str_ERROR, str_CLIENT_ERROR, str_NOT_FOUND,
    List.takeWhile_cons]

/-! ## Lemmas: decimal numerals -/

theorem decimal_fuel_append (fuel n : Nat) (acc : List Nat) :
    decimal_fuel fuel n acc = decimal_fuel fuel n [] ++ acc := by
  induction fuel generalizing n acc with
  | zero => simp [decimal_fuel]
  | succ f ih =>
    unfold decimal_fuel
    by_cases h : n < 10
    · simp [h]
    · rw [if_neg h, if_neg h, ih (n / 10) ((48 + n % 10) :: acc), ih (n / 10) [48 + n % 10]]
      simp

theorem cstr_of_no_nul (s : List Nat) (h : ∀ c ∈ s, c ≠ 0) : cstr s = s := by
  unfold cstr
  rw [List.takeWhile_eq_self_iff]
  intro c hc
  simpa using h c hc

theorem to_int_small (n : Nat) (h : n < 2 ^ 31) : to_int n = (n : Int) := by
  unfold to_int
  have : n % 2 ^ 32 = n := Nat.mod_eq_of_lt (by omega)
  rw [this, if_pos h]

theorem fmt_precision_s_id (s : List Nat) (h : ∀ c ∈ s, c ≠ 0) (hlen : s.length < 2 ^ 31) :
    fmt_precision_s (to_int s.length) s = s := by
  unfold fmt_precision_s
  rw [to_int_small _ hlen, cstr_of_no_nul s h, if_neg (by omega)]
  simp

theorem text_line_length (verb pre key : List Nat) (delta : Nat) (quiet : Bool) :
    (text_line verb pre key delta quiet).length =
      verb.length + 1 + pre.length + key.length + 1 + (decimal delta).length
        + (if quiet then 8 else 0) + 2 := by
  have h1 : str " " = [32] := by decide
  have h2 : str "\r\n" = [13, 10] := by decide
  unfold text_line
  cases quiet <;> simp [h1, h2, str_noreply] <;> omega

/-- For a verb, a prefix and a key without NUL byte, short enough for `int`, the line
`snprintf` formats is the line of the specification. -/
theorem text_request_eq_text_line (ptr : memcached_st) (verb key : List Nat) (offset : Nat)
    (hverb : ∀ c ∈ verb, c ≠ 0) (hpre : ∀ c ∈ ptr.prefix_key, c ≠ 0) (hkey : ∀ c ∈ key, c ≠ 0)
    (hplen : ptr.prefix_key.length < 2 ^ 31) (hklen : key.length < 2 ^ 31)
    (hoff : offset < 2 ^ 64) :
    text_request ptr verb key offset = text_line verb ptr.prefix_key key offset ptr.no_reply := by
  have h1 : str " " = [32] := by decide
  have h2 : str "\r\n" = [13, 10] := by decide
  unfold text_request text_line
  rw [cstr_of_no_nul verb hverb, fmt_precision_s_id _ hpre hplen, fmt_precision_s_id _ hkey hklen,
    Nat.mod_eq_of_lt hoff, h1, h2]
  cases ptr.no_reply
  · simp [str_empty, cstr]
  · simp [str_noreply, cstr, List.takeWhile_cons]

theorem decimal_last (n : Nat) : ∃ l d, decimal n = l ++ [d] ∧ 48 ≤ d ∧ d ≤ 57 := by
  unfold decimal decimal_fuel
  by_cases h : n < 10
  · exact ⟨[], 48 + n, by simp [h], by omega, by omega⟩
  · rw [if_neg h, decimal_fuel_append]
    exact ⟨_, 48 + n % 10, rfl, by omega, by omega⟩

theorem noreply_suffix_iff (verb pre key : List Nat) (delta : Nat) (quiet : Bool) :
    str " noreply\r\n" <:+ text_line verb pre key delta quiet ↔ quiet = true := by
  have h1 : str " noreply\r\n" = [32, 110, 111, 114, 101, 112, 108, 121, 13, 10] := by decide
  have h2 : str "\r\n" = [13, 10] := by decide
  constructor
  · intro hs
    cases quiet with
    | true => rfl
    | false =>
      exfalso
      obtain ⟨l, d, hd, hd1, hd2⟩ := decimal_last delta
      obtain ⟨t, ht⟩ := hs
      have := congrArg List.reverse ht
      simp [text_line, hd, h1, h2] at this
      omega
  · intro hq
    subst hq
    refine ⟨verb ++ str " " ++ pre ++ key ++ str " " ++ decimal delta, ?_⟩
    simp [text_line, h1, h2, str_noreply]

/-! ## Lemmas: the binary request -/

theorem be_length (w x : Nat) : (be w x).length = w := by
  induction w with
  | zero => rfl
  | succ w ih => simp [be, ih]

theorem be_value_be_2 (n : Nat) (h : n < 2 ^ 16) : be_value (be 2 n) = n := by
  simp [be, be_value]
  omega

/-- Whatever the call, a non-empty cluster makes `binary_incr_decr` hash the routing
key and write the three segments once. -/
theorem binary_incr_decr_trace (K : Constants) (E : Collaborators) (ptr : memcached_st)
    (cmd : Nat) (master_key key : List Nat) (offset initial expiration value : Nat)
    (hhosts : ptr.number_of_hosts ≠ 0) :
    ∃ rest, (binary_incr_decr K E ptr cmd master_key key offset initial expiration value).trace
      = Event.hash master_key
        :: Event.vsend (E.memcached_generate_hash_with_redistribution ptr master_key)
            (binary_vector K ptr cmd key offset initial expiration)
        :: rest ∧ sent_vectors rest = [] := by
  unfold binary_incr_decr
  rw [if_neg hhosts]
  simp only
  split
  · exact ⟨_, rfl, rfl⟩
  · split
    · exact ⟨_, rfl, rfl⟩
    · exact ⟨_, rfl, rfl⟩

theorem binary_incr_decr_sent_vectors (K : Constants) (E : Collaborators) (ptr : memcached_st)
    (cmd : Nat) (master_key key : List Nat) (offset initial expiration value : Nat)
    (hhosts : ptr.number_of_hosts ≠ 0) :
    sent_vectors (binary_incr_decr K E ptr cmd master_key key offset initial expiration value).trace
      = [binary_vector K ptr cmd key offset initial expiration] := by
  obtain ⟨rest, h1, h2⟩ :=
    binary_incr_decr_trace K E ptr cmd master_key key offset initial expiration value hhosts
  rw [h1]
  simp [sent_vectors, h2]

theorem request_bytes_eq_frame (K : Constants) (ptr : memcached_st) (cmd : Nat)
    (key : List Nat) (offset initial expiration : Nat)
    (hlen : key.length + ptr.prefix_key.length < 2 ^ 16) :
    request_bytes (binary_request K ptr cmd key offset initial expiration)
      = binary_frame (quiet_cmd K ptr.no_reply cmd % 256) (key.length + ptr.prefix_key.length)
          offset initial expiration := by
  have h16 : (key.length + ptr.prefix_key.length) % 2 ^ 16 = key.length + ptr.prefix_key.length :=
    Nat.mod_eq_of_lt hlen
  have h32 : (key.length + ptr.prefix_key.length + 20) % 2 ^ 32
      = key.length + ptr.prefix_key.length + 20 := Nat.mod_eq_of_lt (by omega)
  have hexp : be 4 (expiration % 2 ^ 32) = be 4 expiration := by
    simp [be]
    omega
  simp only [request_bytes, binary_request, request_zero, binary_frame, h16, h32, hexp,
    PROTOCOL_BINARY_REQ, PROTOCOL_BINARY_RAW_BYTES]
  simp [be]

/-! ## Lemmas: the public operations -/

/-- A key length the validator rejects stops every public operation before any call
of the router or the transport. -/
theorem call_rejected (op : PublicOp) (K : Constants) (E : Collaborators) (ptr : memcached_st)
    (master_key key : List Nat) (offset initial : Nat) (expiration : Int) (value : Nat)
    (h : memcached_validate_key_length K key.length ptr.binary_protocol ≠ MEMCACHED_SUCCESS) :
    op.call K E ptr master_key key offset initial expiration value
      = ⟨memcached_validate_key_length K key.length ptr.binary_protocol, value, []⟩ := by
  cases op <;>
    simp [PublicOp.call, memcached_increment, memcached_decrement,
      memcached_increment_with_initial, memcached_decrement_with_initial,
      memcached_increment_by_key, memcached_decrement_by_key,
      memcached_increment_with_initial_by_key, memcached_decrement_with_initial_by_key, h]

/-- In binary mode, with a key length the validator accepts, every public operation
is a call of `binary_incr_decr`. -/
theorem call_binary (op : PublicOp) (K : Constants) (E : Collaborators) (ptr : memcached_st)
    (master_key key : List Nat) (offset initial : Nat) (expiration : Int) (value : Nat)
    (hbin : ptr.binary_protocol = true)
    (h : memcached_validate_key_length K key.length ptr.binary_protocol = MEMCACHED_SUCCESS) :
    op.call K E ptr master_key key offset initial expiration value
      = binary_incr_decr K E ptr (op.cmd K) (op.routing_key master_key key) key
          (op.offset_arg offset) (op.initial_arg initial) (op.expiration_arg K expiration)
          value := by
  rw [hbin] at h
  cases op <;>
    simp [PublicOp.call, memcached_increment, memcached_decrement,
      memcached_increment_with_initial, memcached_decrement_with_initial,
      memcached_increment_by_key, memcached_decrement_by_key,
      memcached_increment_with_initial_by_key, memcached_decrement_with_initial_by_key, h, hbin,
      PublicOp.cmd, PublicOp.routing_key, PublicOp.offset_arg, PublicOp.initial_arg, PublicOp.expiration_arg,
      PublicOp.is_decrement, PublicOp.by_key, PublicOp.with_initial]

/-- In text mode, with a key length the validator accepts, the plain operations are
calls of `text_incr_decr` and the with_initial forms return protocol_error at once. -/
theorem call_text (op : PublicOp) (K : Constants) (E : Collaborators) (ptr : memcached_st)
    (master_key key : List Nat) (offset initial : Nat) (expiration : Int) (value : Nat)
    (htext : ptr.binary_protocol = false)
    (h : memcached_validate_key_length K key.length ptr.binary_protocol = MEMCACHED_SUCCESS) :
    op.call K E ptr master_key key offset initial expiration value
      = if op.with_initial then ⟨MEMCACHED_PROTOCOL_ERROR, value, []⟩
        else text_incr_decr K E ptr (if op.is_decrement then str "decr" else str "incr")
          (op.routing_key master_key key) key (op.offset_arg offset) value := by
  rw [htext] at h
  cases op <;>
    simp [PublicOp.call, memcached_increment, memcached_decrement,
      memcached_increment_with_initial, memcached_decrement_with_initial,
      memcached_increment_by_key, memcached_decrement_by_key,
      memcached_increment_with_initial_by_key, memcached_decrement_with_initial_by_key, h, htext,
      PublicOp.routing_key, PublicOp.offset_arg, PublicOp.is_decrement, PublicOp.by_key, PublicOp.with_initial]

theorem validate_rejects_iff (K : Constants) (key_length : Nat) (binary : Bool) :
    memcached_validate_key_length K key_length binary ≠ MEMCACHED_SUCCESS ↔
      (key_length = 0 ∨
        (if binary then K.MEMCACHED_MAX_KEY_BINARY else K.MEMCACHED_MAX_KEY_TEXT) < key_length) := by
  unfold memcached_validate_key_length
  by_cases hc : key_length = 0 ∨
      (if binary then K.MEMCACHED_MAX_KEY_BINARY else K.MEMCACHED_MAX_KEY_TEXT) < key_length
  · rw [if_pos hc]; simp [hc]
  · rw [if_neg hc]; simp [hc]

theorem validate_rejects_eq (K : Constants) (key_length : Nat) (binary : Bool)
    (h : key_length = 0 ∨
      (if binary then K.MEMCACHED_MAX_KEY_BINARY else K.MEMCACHED_MAX_KEY_TEXT) < key_length) :
    memcached_validate_key_length K key_length binary = MEMCACHED_BAD_KEY_PROVIDED := by
  unfold memcached_validate_key_length
  rw [if_pos h]

theorem quiet_cmd_eq_effectiveOpcode (K : Constants) (hK : K.opcodes_distinct)
    (decrement quiet : Bool) :
    quiet_cmd K quiet
      (if decrement then K.PROTOCOL_BINARY_CMD_DECREMENT else K.PROTOCOL_BINARY_CMD_INCREMENT)
      = effectiveOpcode K decrement quiet := by
  obtain ⟨hnd, -⟩ := hK
  simp only [List.nodup_cons, List.mem_cons, List.mem_singleton, not_or, List.not_mem_nil,
    not_false_eq_true, List.nodup_nil, and_true] at hnd
  obtain ⟨⟨h1, h2, h3⟩, ⟨h4, h5⟩, h6⟩ := hnd
  cases decrement <;> cases quiet <;> simp [quiet_cmd, effectiveOpcode]
  · intro h; exact absurd h h1
  · intro h; exact absurd h.symm h3

theorem effectiveOpcode_lt (K : Constants) (hK : K.opcodes_distinct) (decrement quiet : Bool) :
    effectiveOpcode K decrement quiet < 256 := by
  obtain ⟨-, h1, h2, h3, h4⟩ := hK
  cases decrement <;> cases quiet <;> simp [effectiveOpcode, *]

theorem binary_vector_opcode (K : Constants) (ptr : memcached_st) (cmd : Nat) (key : List Nat)
    (offset initial expiration : Nat) :
    ((binary_vector K ptr cmd key offset initial expiration).headD []).getD 1 0
      = quiet_cmd K ptr.no_reply cmd % 256 := by
  simp [binary_vector, request_bytes, binary_request, be]

/-! ## Lemmas: statuses of the text decoder -/

theorem classify_status (buffer : List Nat) :
    (text_classify buffer).1 = MEMCACHED_PROTOCOL_ERROR ∨
    (text_classify buffer).1 = MEMCACHED_NOTFOUND ∨
    (text_classify buffer).1 = MEMCACHED_SUCCESS := by
  unfold text_classify
  split
  · exact Or.inl rfl
  · split
    · exact Or.inl rfl
    · split
      · exact Or.inr (Or.inl rfl)
      · exact Or.inr (Or.inr rfl)

/-- What `text_incr_decr` does once the cluster is not empty and the key test has
let the operand key through. -/
theorem text_incr_decr_after_checks (K : Constants) (E : Collaborators) (ptr : memcached_st)
    (verb master_key key : List Nat) (offset value : Nat)
    (hhosts : ptr.number_of_hosts ≠ 0)
    (htest : (ptr.verify_key && (E.memcached_key_test key == MEMCACHED_BAD_KEY_PROVIDED)) = false) :
    text_incr_decr K E ptr verb master_key key offset value =
      if K.MEMCACHED_DEFAULT_COMMAND_SIZE ≤ (text_request ptr verb key offset).length ∨
          2 ^ 31 ≤ (text_request ptr verb key offset).length then
        ⟨MEMCACHED_WRITE_FAILURE, value, [Event.hash master_key]⟩
      else if ptr.no_reply = true ∨
          E.memcached_do (E.memcached_generate_hash_with_redistribution ptr master_key)
            (text_request ptr verb key offset) ≠ MEMCACHED_SUCCESS then
        ⟨E.memcached_do (E.memcached_generate_hash_with_redistribution ptr master_key)
            (text_request ptr verb key offset), value,
          [Event.hash master_key,
           Event.send (E.memcached_generate_hash_with_redistribution ptr master_key)
            (text_request ptr verb key offset)]⟩
      else
        ⟨(text_classify (text_response K E ptr verb master_key key offset)).1,
         (text_classify (text_response K E ptr verb master_key key offset)).2,
         [Event.hash master_key,
          Event.send (E.memcached_generate_hash_with_redistribution ptr master_key)
            (text_request ptr verb key offset),
          Event.recv (E.memcached_generate_hash_with_redistribution ptr master_key)
            K.MEMCACHED_DEFAULT_COMMAND_SIZE]⟩ := by
  unfold text_incr_decr
  rw [if_neg hhosts, htest]
  simp only [Bool.false_eq_true, if_false]
  rfl

/-! ## Lemmas: the server instance of the transport calls -/

theorem binary_incr_decr_servers (K : Constants) (E : Collaborators) (ptr : memcached_st)
    (cmd : Nat) (master_key key : List Nat) (offset initial expiration value : Nat) :
    ∀ s ∈ servers (binary_incr_decr K E ptr cmd master_key key offset initial expiration
      value).trace, s = E.memcached_generate_hash_with_redistribution ptr master_key := by
  unfold binary_incr_decr
  intro s hs
  split at hs
  · simp [servers] at hs
  · simp only at hs
    split at hs
    · simp [servers] at hs
      tauto
    · split at hs
      · simp [servers] at hs
        exact hs
      · simp [servers] at hs
        tauto

theorem text_incr_decr_servers (K : Constants) (E : Collaborators) (ptr : memcached_st)
    (verb master_key key : List Nat) (offset value : Nat) :
    ∀ s ∈ servers (text_incr_decr K E ptr verb master_key key offset value).trace,
      s = E.memcached_generate_hash_with_redistribution ptr master_key := by
  unfold text_incr_decr
  intro s hs
  split at hs
  · simp [servers] at hs
  · split at hs
    · simp [servers] at hs
    · simp only at hs
      split at hs
      · simp [servers] at hs
      · split at hs
        · simp [servers] at hs
          exact hs
        · simp [servers] at hs
          tauto

/-- Every transport call of a public operation goes to the server instance the
hash of the routing key selects. -/
theorem call_servers (op : PublicOp) (K : Constants) (E : Collaborators) (ptr : memcached_st)
    (master_key key : List Nat) (offset initial : Nat) (expiration : Int) (value : Nat) :
    ∀ s ∈ servers (op.call K E ptr master_key key offset initial expiration value).trace,
      s = E.memcached_generate_hash_with_redistribution ptr (op.routing_key master_key key) := by
  intro s hs
  by_cases hv : memcached_validate_key_length K key.length ptr.binary_protocol
      = MEMCACHED_SUCCESS
  · cases hb : ptr.binary_protocol with
    | true =>
      rw [call_binary op K E ptr master_key key offset initial expiration value hb hv] at hs
      exact binary_incr_decr_servers _ _ _ _ _ _ _ _ _ _ s hs
    | false =>
      rw [call_text op K E ptr master_key key offset initial expiration value hb hv] at hs
      split at hs
      · simp [servers] at hs
      · exact text_incr_decr_servers _ _ _ _ _ _ _ _ s hs
  · rw [call_rejected op K E ptr master_key key offset initial expiration value hv] at hs
    simp [servers] at hs

/-! ## Lemmas: lines that are not numerals -/

theorem strncmp_eq_false_of_mismatch (buffer lit : List Nat) (n : Nat)
    (hlen : lit.length = n) (hlit : cstr lit = lit) (h : ¬ lit <+: buffer) :
    strncmp_eq buffer lit n = false := by
  cases hc : strncmp_eq buffer lit n with
  | false => rfl
  | true =>
    exfalso
    apply h
    unfold strncmp_eq at hc
    have heq : (cstr buffer).take n = (cstr lit).take n := by simpa using hc
    rw [hlit, ← hlen, List.take_length] at heq
    rw [← heq]
    exact (List.take_prefix _ _).trans (List.takeWhile_prefix _)

theorem parse_digits_no_digit (s : List Nat) (h : s.head?.any isdigit = false) :
    parse_digits 0 s = 0 := by
  cases s with
  | nil => rfl
  | cons c t =>
    have hc : isdigit c = false := by simpa using h
    simp [parse_digits, hc]

theorem strtoull_no_numeral (s : List Nat) (h : starts_numeral s = false) : strtoull s = 0 := by
  unfold starts_numeral at h
  unfold strtoull
  cases hd : s.dropWhile isspace with
  | nil => simp [parse_digits]
  | cons c t =>
    rw [hd] at h
    simp only [Bool.or_eq_false_iff, Bool.and_eq_false_iff] at h
    obtain ⟨hc, hsign⟩ := h
    by_cases h45 : c = 45
    · subst h45
      have ht : t.head?.any isdigit = false := by
        rcases hsign with hs | hs
        · simp at hs
        · exact hs
      simp [parse_digits_no_digit t ht]
    · by_cases h43 : c = 43
      · subst h43
        have ht : t.head?.any isdigit = false := by
          rcases hsign with hs | hs
          · simp at hs
          · exact hs
        simp [parse_digits_no_digit t ht]
      · simp [h45, h43, parse_digits, hc]

theorem classify_no_numeral (buffer : List Nat)
    (h1 : ¬ str "ERROR\r\n" <+: buffer) (h2 : ¬ str "CLIENT_ERROR\r\n" <+: buffer)
    (h3 : ¬ str "NOT_FOUND\r\n" <+: buffer) (h4 : starts_numeral buffer = false) :
    text_classify buffer = (MEMCACHED_SUCCESS, 0) := by
  unfold text_classify
  rw [strncmp_eq_false_of_mismatch buffer _ 7 (by decide) (by decide) h1,
    strncmp_eq_false_of_mismatch buffer _ 14 (by decide) (by decide) h2,
    strncmp_eq_false_of_mismatch buffer _ 11 (by decide) (by decide) h3,
    strtoull_no_numeral buffer h4]
  rfl

theorem text_request_starts_with_verb (ptr : memcached_st) (verb key : List Nat) (offset : Nat)
    (hverb : verb = str "incr" ∨ verb = str "decr") :
    ∃ rest, text_request ptr verb key offset = verb ++ 32 :: rest := by
  have hc : cstr verb = verb := by
    rcases hverb with h | h <;> subst h <;> decide
  unfold text_request
  rw [hc]
  refine ⟨fmt_precision_s (to_int ptr.prefix_key.length) ptr.prefix_key
    ++ fmt_precision_s (to_int key.length) key ++ [32] ++ decimal (offset % 2 ^ 64)
    ++ cstr (if ptr.no_reply then str " noreply" else str "") ++ [13, 10], ?_⟩
  simp

theorem classify_verb_line (verb rest : List Nat)
    (hverb : verb = str "incr" ∨ verb = str "decr") :
    text_classify (verb ++ 32 :: rest) = (MEMCACHED_SUCCESS, 0) := by
  apply classify_no_numeral
  · rintro ⟨t, ht⟩
    rcases hverb with h | h <;> subst h <;> simp [str_incr, str_decr, str_ERROR] at ht
  · rintro ⟨t, ht⟩
    rcases hverb with h | h <;> subst h <;> simp [str_incr, str_decr, str_CLIENT_ERROR] at ht
  · rintro ⟨t, ht⟩
    rcases hverb with h | h <;> subst h <;> simp [str_incr, str_decr, str_NOT_FOUND] at ht
  · rcases hverb with h | h <;> subst h <;>
      simp [starts_numeral, str_incr, str_decr, List.dropWhile_cons, isspace, isdigit]

/-! ## Lemmas: the fields of the request -/

theorem be_value_foldl (l : List Nat) (acc : Nat) :
    l.foldl (fun a b => a * 256 + b) acc = acc * 256 ^ l.length + be_value l := by
  unfold be_value
  induction l generalizing acc with
  | nil => simp
  | cons b t ih =>
    simp only [List.foldl_cons, List.length_cons]
    rw [ih (acc * 256 + b), ih (0 * 256 + b)]
    ring

theorem be_value_be (w x : Nat) : be_value (be w x) = x % 256 ^ w := by
  induction w with
  | zero => simp [be, be_value, Nat.mod_one]
  | succ w ih =>
    have h : be_value (be (w + 1) x) = (x / 256 ^ w % 256) * 256 ^ w + be_value (be w x) := by
      simp only [be]
      unfold be_value
      simp only [List.foldl_cons]
      rw [be_value_foldl, be_length]
      simp [be_value]
    rw [h, ih, Nat.mod_pow_succ]
    ring

theorem request_bytes_split (r : protocol_binary_request_incr) :
    request_bytes r =
      (be 1 r.magic ++ be 1 r.opcode) ++ (be 2 r.keylen ++
        ((be 1 r.extlen ++ be 1 r.datatype ++ be 2 r.reserved) ++ (be 4 r.bodylen ++
          ((be 4 r.opq ++ be 8 r.cas) ++ (be 8 r.delta ++ (be 8 r.initial ++
            be 4 r.expiration)))))) := by
  simp [request_bytes]

theorem frame_keylen_request (r : protocol_binary_request_incr) :
    frame_keylen (request_bytes r) = r.keylen % 2 ^ 16 := by
  have h : ((request_bytes r).drop 2).take 2 = be 2 r.keylen := by
    rw [request_bytes_split, List.drop_left' (by simp [be_length]),
      List.take_left' (by simp [be_length])]
  rw [frame_keylen, h, be_value_be]
  norm_num

theorem frame_bodylen_request (r : protocol_binary_request_incr) :
    frame_bodylen (request_bytes r) = r.bodylen % 2 ^ 32 := by
  have h : ((request_bytes r).drop 8).take 4 = be 4 r.bodylen := by
    rw [request_bytes_split, ← List.append_assoc, ← List.append_assoc,
      List.drop_left' (by simp [be_length]), List.take_left' (by simp [be_length])]
  rw [frame_bodylen, h, be_value_be]
  norm_num

theorem frame_delta_request (r : protocol_binary_request_incr) :
    frame_delta (request_bytes r) = r.delta % 2 ^ 64 := by
  have h : ((request_bytes r).drop 24).take 8 = be 8 r.delta := by
    rw [request_bytes_split, ← List.append_assoc, ← List.append_assoc, ← List.append_assoc,
      ← List.append_assoc, List.drop_left' (by simp [be_length]),
      List.take_left' (by simp [be_length])]
  rw [frame_delta, h, be_value_be]
  norm_num

theorem frame_initial_request (r : protocol_binary_request_incr) :
    frame_initial (request_bytes r) = r.initial % 2 ^ 64 := by
  have h : ((request_bytes r).drop 32).take 8 = be 8 r.initial := by
    rw [request_bytes_split, ← List.append_assoc, ← List.append_assoc, ← List.append_assoc,
      ← List.append_assoc, ← List.append_assoc, List.drop_left' (by simp [be_length]),
      List.take_left' (by simp [be_length])]
  rw [frame_initial, h, be_value_be]
  norm_num

theorem frame_expiration_request (r : protocol_binary_request_incr) :
    frame_expiration (request_bytes r) = r.expiration % 2 ^ 32 := by
  have h : ((request_bytes r).drop 40).take 4 = be 4 r.expiration := by
    rw [request_bytes_split, ← List.append_assoc, ← List.append_assoc, ← List.append_assoc,
      ← List.append_assoc, ← List.append_assoc, ← List.append_assoc,
      List.drop_left' (by simp [be_length])]
    exact List.take_of_length_le (by simp [be_length])
  rw [frame_expiration, h, be_value_be]
  norm_num

/-! ## Lemmas: the routing key acts through its hash -/

theorem binary_incr_decr_routing (K : Constants) (E : Collaborators) (ptr : memcached_st)
    (cmd : Nat) (m1 m2 key : List Nat) (offset initial expiration value : Nat)
    (h : E.memcached_generate_hash_with_redistribution ptr m1
      = E.memcached_generate_hash_with_redistribution ptr m2) :
    (binary_incr_decr K E ptr cmd m1 key offset initial expiration value).rc
      = (binary_incr_decr K E ptr cmd m2 key offset initial expiration value).rc ∧
    (binary_incr_decr K E ptr cmd m1 key offset initial expiration value).value
      = (binary_incr_decr K E ptr cmd m2 key offset initial expiration value).value ∧
    transport_calls (binary_incr_decr K E ptr cmd m1 key offset initial expiration value).trace
      = transport_calls
          (binary_incr_decr K E ptr cmd m2 key offset initial expiration value).trace := by
  unfold binary_incr_decr
  rw [h]
  split
  · exact ⟨rfl, rfl, rfl⟩
  · simp only
    split
    · exact ⟨rfl, rfl, rfl⟩
    · split
      · exact ⟨rfl, rfl, rfl⟩
      · exact ⟨rfl, rfl, rfl⟩

theorem text_incr_decr_routing (K : Constants) (E : Collaborators) (ptr : memcached_st)
    (verb m1 m2 key : List Nat) (offset value : Nat)
    (h : E.memcached_generate_hash_with_redistribution ptr m1
      = E.memcached_generate_hash_with_redistribution ptr m2) :
    (text_incr_decr K E ptr verb m1 key offset value).rc
      = (text_incr_decr K E ptr verb m2 key offset value).rc ∧
    (text_incr_decr K E ptr verb m1 key offset value).value
      = (text_incr_decr K E ptr verb m2 key offset value).value ∧
    transport_calls (text_incr_decr K E ptr verb m1 key offset value).trace
      = transport_calls (text_incr_decr K E ptr verb m2 key offset value).trace := by
  unfold text_incr_decr
  rw [h]
  split
  · exact ⟨rfl, rfl, rfl⟩
  · split
    · exact ⟨rfl, rfl, rfl⟩
    · simp only
      split
      · exact ⟨rfl, rfl, rfl⟩
      · split
        · exact ⟨rfl, rfl, rfl⟩
        · exact ⟨rfl, rfl, rfl⟩

/-- Status, value and transport calls of a public operation depend on the routing
key only through the server instance its hash selects. -/
theorem call_routing (op : PublicOp) (K : Constants) (E : Collaborators) (ptr : memcached_st)
    (m1 m2 key : List Nat) (offset initial : Nat) (expiration : Int) (value : Nat)
    (h : E.memcached_generate_hash_with_redistribution ptr m1
      = E.memcached_generate_hash_with_redistribution ptr m2) :
    (op.call K E ptr m1 key offset initial expiration value).rc
      = (op.call K E ptr m2 key offset initial expiration value).rc ∧
    (op.call K E ptr m1 key offset initial expiration value).value
      = (op.call K E ptr m2 key offset initial expiration value).value ∧
    transport_calls (op.call K E ptr m1 key offset initial expiration value).trace
      = transport_calls (op.call K E ptr m2 key offset initial expiration value).trace := by
  have hr : E.memcached_generate_hash_with_redistribution ptr (op.routing_key m1 key)
      = E.memcached_generate_hash_with_redistribution ptr (op.routing_key m2 key) := by
    unfold PublicOp.routing_key
    cases op.by_key
    · rfl
    · exact h
  by_cases hv : memcached_validate_key_length K key.length ptr.binary_protocol
      = MEMCACHED_SUCCESS
  · cases hb : ptr.binary_protocol with
    | true =>
      rw [call_binary op K E ptr m1 key offset initial expiration value hb hv,
        call_binary op K E ptr m2 key offset initial expiration value hb hv]
      exact binary_incr_decr_routing _ _ _ _ _ _ _ _ _ _ _ hr
    | false =>
      rw [call_text op K E ptr m1 key offset initial expiration value hb hv,
        call_text op K E ptr m2 key offset initial expiration value hb hv]
      cases op.with_initial
      · exact text_incr_decr_routing _ _ _ _ _ _ _ _ _ hr
      · exact ⟨rfl, rfl, rfl⟩
  · rw [call_rejected op K E ptr m1 key offset initial expiration value hv,
      call_rejected op K E ptr m2 key offset initial expiration value hv]
    exact ⟨rfl, rfl, rfl⟩

theorem binary_incr_decr_send_count (K : Constants) (E : Collaborators) (ptr : memcached_st)
    (cmd : Nat) (master_key key : List Nat) (offset initial expiration value : Nat)
    (hhosts : ptr.number_of_hosts ≠ 0) :
    send_count (binary_incr_decr K E ptr cmd master_key key offset initial expiration
      value).trace = 1 := by
  unfold binary_incr_decr
  rw [if_neg hhosts]
  simp only
  split
  · rfl
  · split
    · rfl
    · rfl

theorem text_incr_decr_send_count (K : Constants) (E : Collaborators) (ptr : memcached_st)
    (verb master_key key : List Nat) (offset value : Nat)
    (hsends : TextSends K E ptr verb key offset) :
    send_count (text_incr_decr K E ptr verb master_key key offset value).trace = 1 := by
  obtain ⟨h1, h2, h3, h4⟩ := hsends
  rw [text_incr_decr_after_checks K E ptr verb master_key key offset value h1 h2,
    if_neg (by omega)]
  split
  · rfl
  · rfl

/-! ## Text response classification -/

/-- C1: in a text call that is not quiet and whose send succeeded, a response buffer
that begins with `ERROR\r\n` gives protocol_error and value 0, one that begins with
`CLIENT_ERROR\r\n` gives protocol_error and value 0, one that begins with
`NOT_FOUND\r\n` gives not_found and value 0, and the buffer `4\r\n` gives success and
value 4. -/
theorem text_response_classification (K : Constants) (E : Collaborators) (ptr : memcached_st)
    (verb master_key key : List Nat) (offset value : Nat)
    (hsends : TextSends K E ptr verb key offset)
    (hquiet : ptr.no_reply = false)
    (hsend : E.memcached_do (E.memcached_generate_hash_with_redistribution ptr master_key)
      (text_request ptr verb key offset) = MEMCACHED_SUCCESS) :
    (str "ERROR\r\n" <+: text_response K E ptr verb master_key key offset →
      (text_incr_decr K E ptr verb master_key key offset value).rc = MEMCACHED_PROTOCOL_ERROR ∧
      (text_incr_decr K E ptr verb master_key key offset value).value = 0) ∧
    (str "CLIENT_ERROR\r\n" <+: text_response K E ptr verb master_key key offset →
      (text_incr_decr K E ptr verb master_key key offset value).rc = MEMCACHED_PROTOCOL_ERROR ∧
      (text_incr_decr K E ptr verb master_key key offset value).value = 0) ∧
    (str "NOT_FOUND\r\n" <+: text_response K E ptr verb master_key key offset →
      (text_incr_decr K E ptr verb master_key key offset value).rc = MEMCACHED_NOTFOUND ∧
      (text_incr_decr K E ptr verb master_key key offset value).value = 0) ∧
    (text_response K E ptr verb master_key key offset = str "4\r\n" →
      (text_incr_decr K E ptr verb master_key key offset value).rc = MEMCACHED_SUCCESS ∧
      (text_incr_decr K E ptr verb master_key key offset value).value = 4) := by
  rw [text_incr_decr_decodes K E ptr verb master_key key offset value hsends hquiet hsend]
  refine ⟨fun h => ?_, fun h => ?_, fun h => ?_, fun h => ?_⟩
  · simp [classify_ERROR _ h]
  · simp [classify_CLIENT_ERROR _ h]
  · simp [classify_NOT_FOUND _ h]
  · have h4 : text_classify (str "4\r\n") = (MEMCACHED_SUCCESS, 4) := by decide
    simp [h, h4]

/-- C1, at the four fixtures: the stub transport answers `ERROR\r\n`,
`CLIENT_ERROR\r\n`, `NOT_FOUND\r\n` and `4\r\n` to `incr ns:counter 1`. -/
theorem text_response_classification_witness :
    (TextSends library_constants (stub MEMCACHED_SUCCESS MEMCACHED_SUCCESS (str "ERROR\r\n") 0)
        text_client (str "incr") (str "counter") 1 ∧
      text_client.no_reply = false) ∧
    (text_incr_decr library_constants
        (stub MEMCACHED_SUCCESS MEMCACHED_SUCCESS (str "ERROR\r\n") 0)
        text_client (str "incr") (str "counter") (str "counter") 1 9).rc
      = MEMCACHED_PROTOCOL_ERROR ∧
    (text_incr_decr library_constants
        (stub MEMCACHED_SUCCESS MEMCACHED_SUCCESS (str "CLIENT_ERROR\r\n") 0)
        text_client (str "incr") (str "counter") (str "counter") 1 9).value = 0 ∧
    (text_incr_decr library_constants
        (stub MEMCACHED_SUCCESS MEMCACHED_SUCCESS (str "NOT_FOUND\r\n") 0)
        text_client (str "incr") (str "counter") (str "counter") 1 9).rc = MEMCACHED_NOTFOUND ∧
    (text_incr_decr library_constants
        (stub MEMCACHED_SUCCESS MEMCACHED_SUCCESS (str "4\r\n") 0)
        text_client (str "incr") (str "counter") (str "counter") 1 9).value = 4 :=
  ⟨⟨by decide, rfl⟩,
   ((text_response_classification library_constants
      (stub MEMCACHED_SUCCESS MEMCACHED_SUCCESS (str "ERROR\r\n") 0)
      text_client (str "incr") (str "counter") (str "counter") 1 9
      (by decide) rfl rfl).1 ⟨[], by decide⟩).1,
   ((text_response_classification library_constants
      (stub MEMCACHED_SUCCESS MEMCACHED_SUCCESS (str "CLIENT_ERROR\r\n") 0)
      text_client (str "incr") (str "counter") (str "counter") 1 9
      (by decide) rfl rfl).2.1 ⟨[], by decide⟩).2,
   ((text_response_classification library_constants
      (stub MEMCACHED_SUCCESS MEMCACHED_SUCCESS (str "NOT_FOUND\r\n") 0)
      text_client (str "incr") (str "counter") (str "counter") 1 9
      (by decide) rfl rfl).2.2.1 ⟨[], by decide⟩).1,
   ((text_response_classification library_constants
      (stub MEMCACHED_SUCCESS MEMCACHED_SUCCESS (str "4\r\n") 0)
      text_client (str "incr") (str "counter") (str "counter") 1 9
      (by decide) rfl rfl).2.2.2 rfl).2⟩

/-! ## Numeral round trip -/

/-- C3, as stated, fails for an operand key that holds a NUL byte: the conversion
`%.*s` stops at the NUL.  For the three-byte key `a\0b` the line
`incr ns:a\0b 1\r\n` fits the command buffer, and what is sent is `incr ns:a 1\r\n`. -/
theorem text_request_encoding_counterexample :
    (text_line (str "incr") text_client.prefix_key [97, 0, 98] 1 text_client.no_reply).length
      < library_constants.MEMCACHED_DEFAULT_COMMAND_SIZE ∧
    sent_lines (memcached_increment_by_key library_constants
        (stub MEMCACHED_SUCCESS MEMCACHED_SUCCESS (str "2\r\n") 0)
        text_client [97, 0, 98] [97, 0, 98] 1 0).trace = [str "incr ns:a 1\r\n"] ∧
    sent_lines (memcached_increment_by_key library_constants
        (stub MEMCACHED_SUCCESS MEMCACHED_SUCCESS (str "2\r\n") 0)
        text_client [97, 0, 98] [97, 0, 98] 1 0).trace
      ≠ [text_line (str "incr") text_client.prefix_key [97, 0, 98] 1 text_client.no_reply] := by
  decide

/-- C3, amended: for a verb in {`incr`, `decr`}, a prefix and an operand key that hold
no NUL byte, and a 64-bit delta, when the line
verb ++ " " ++ prefix ++ key ++ " " ++ decimal(delta) ++ (" noreply" if quiet) ++ "\r\n"
fits the command buffer, a call of `text_incr_decr` that is not stopped before the send
hands exactly that line to the transport, once; the line ends in ` noreply\r\n` if and
only if the no_reply flag is set; and in text mode, for a key of accepted length,
`memcached_increment_by_key` is `text_incr_decr` with verb `incr` and
`memcached_decrement_by_key` is `text_incr_decr` with verb `decr`. -/
theorem text_request_encoding (K : Constants) (E : Collaborators) (ptr : memcached_st)
    (verb master_key key : List Nat) (offset value : Nat)
    (hverb : verb = str "incr" ∨ verb = str "decr")
    (hsize : K.MEMCACHED_DEFAULT_COMMAND_SIZE ≤ 2 ^ 31)
    (hhosts : ptr.number_of_hosts ≠ 0)
    (htest : (ptr.verify_key && (E.memcached_key_test key == MEMCACHED_BAD_KEY_PROVIDED)) = false)
    (hpre : ∀ c ∈ ptr.prefix_key, c ≠ 0)
    (hkey : ∀ c ∈ key, c ≠ 0)
    (hoff : offset < 2 ^ 64)
    (hfit : (text_line verb ptr.prefix_key key offset ptr.no_reply).length
      < K.MEMCACHED_DEFAULT_COMMAND_SIZE) :
    sent_lines (text_incr_decr K E ptr verb master_key key offset value).trace
      = [text_line verb ptr.prefix_key key offset ptr.no_reply] ∧
    (str " noreply\r\n" <:+ text_line verb ptr.prefix_key key offset ptr.no_reply
      ↔ ptr.no_reply = true) ∧
    (ptr.binary_protocol = false →
      memcached_validate_key_length K key.length false = MEMCACHED_SUCCESS →
      memcached_increment_by_key K E ptr master_key key offset value
        = text_incr_decr K E ptr (str "incr") master_key key offset value ∧
      memcached_decrement_by_key K E ptr master_key key offset value
        = text_incr_decr K E ptr (str "decr") master_key key offset value) := by
  have hv0 : ∀ c ∈ verb, c ≠ 0 := by
    rcases hverb with h | h <;> subst h
    · rw [str_incr]; decide
    · rw [str_decr]; decide
  have hlen := text_line_length verb ptr.prefix_key key offset ptr.no_reply
  have hreq : text_request ptr verb key offset
      = text_line verb ptr.prefix_key key offset ptr.no_reply :=
    text_request_eq_text_line ptr verb key offset hv0 hpre hkey (by omega) (by omega) hoff
  refine ⟨?_, noreply_suffix_iff _ _ _ _ _, ?_⟩
  · unfold text_incr_decr
    rw [if_neg hhosts, htest]
    simp only [Bool.false_eq_true, if_false]
    rw [hreq, if_neg (by omega)]
    by_cases hq : ptr.no_reply = true ∨
        E.memcached_do (E.memcached_generate_hash_with_redistribution ptr master_key)
          (text_line verb ptr.prefix_key key offset ptr.no_reply) ≠ MEMCACHED_SUCCESS
    · rw [if_pos hq]; rfl
    · rw [if_neg hq]; rfl
  · intro hb hval
    unfold memcached_increment_by_key memcached_decrement_by_key
    simp [hb, hval]

/-- C3, amended, at `decr ns:counter 7 noreply\r\n`: a quiet text client with the key
test switched on. -/
theorem text_request_encoding_witness :
    (text_line (str "decr") (str "ns:") (str "counter") 7 true).length
      < library_constants.MEMCACHED_DEFAULT_COMMAND_SIZE ∧
    sent_lines (memcached_decrement_by_key library_constants
        (stub MEMCACHED_SUCCESS MEMCACHED_SUCCESS [] 0)
        { text_client with no_reply := true, verify_key := true }
        (str "other") (str "counter") 7 0).trace
      = [str "decr ns:counter 7 noreply\r\n"] :=
  have h := text_request_encoding library_constants
    (stub MEMCACHED_SUCCESS MEMCACHED_SUCCESS [] 0)
    { text_client with no_reply := true, verify_key := true }
    (str "decr") (str "other") (str "counter") 7 0
    (Or.inr rfl) (by decide) (by decide) (by decide) (by decide) (by decide) (by decide)
    (by decide)
  ⟨by decide, by rw [(h.2.2 rfl (by decide)).2, h.1]; decide⟩

/-! ## Binary request layout -/

/-- With the constants of the library and the prefix `ns:`, the request of an
increment by 1 for a key of 65535 bytes. -/
theorem long_key_request (key : List Nat) (hk : key.length = 65535) :
    memcached_validate_key_length library_constants key.length true = MEMCACHED_SUCCESS ∧
    sent_vectors (memcached_increment_by_key library_constants
        (stub MEMCACHED_SUCCESS MEMCACHED_SUCCESS [] 0) binary_client
        (str "other") key 1 0).trace
      = [[[0x80, 0x05, 0, 2, 20, 0, 0, 0, 0, 1, 0, 22, 0, 0, 0, 0, 0, 0, 0, 0, 0, 0, 0, 0,
           0, 0, 0, 0, 0, 0, 0, 1, 0, 0, 0, 0, 0, 0, 0, 0, 0xff, 0xff, 0xff, 0xff],
          str "ns:", key]] ∧
    be_value [0, 2] ≠ key.length + binary_client.prefix_key.length := by
  have hns : str "ns:" = [110, 115, 58] := by decide
  have hval : memcached_validate_key_length library_constants key.length true
      = MEMCACHED_SUCCESS := by
    rw [hk]; decide
  refine ⟨hval, ?_, ?_⟩
  · unfold memcached_increment_by_key
    have hb : binary_client.binary_protocol = true := rfl
    simp only [hb, hval, ne_eq, not_true_eq_false, if_false, if_true]
    rw [binary_incr_decr_sent_vectors _ _ _ _ _ _ _ _ _ _ (by decide)]
    simp [binary_vector, request_bytes, binary_request, request_zero, be, quiet_cmd,
      library_constants, binary_client, text_client, hns, hk, PROTOCOL_BINARY_REQ,
      PROTOCOL_BINARY_RAW_BYTES]
  · rw [hk]; decide

/-- C4, as stated, fails when the operand key and the prefix together reach 2^16
bytes: the key-length field is cut to 16 bits.  A key of 65535 bytes passes the
key-length validator of the binary protocol; with the three-byte prefix `ns:` the
key-length field of the request holds 2, not 65538, and the body-length field holds
65558, not the key-length field plus 20. -/
theorem binary_request_layout_counterexample :
    (memcached_validate_key_length library_constants (List.replicate 65535 97).length true
      = MEMCACHED_SUCCESS ∧
    sent_vectors (memcached_increment_by_key library_constants
        (stub MEMCACHED_SUCCESS MEMCACHED_SUCCESS [] 0) binary_client
        (str "other") (List.replicate 65535 97) 1 0).trace
      = [[[0x80, 0x05, 0, 2, 20, 0, 0, 0, 0, 1, 0, 22, 0, 0, 0, 0, 0, 0, 0, 0, 0, 0, 0, 0,
           0, 0, 0, 0, 0, 0, 0, 1, 0, 0, 0, 0, 0, 0, 0, 0, 0xff, 0xff, 0xff, 0xff],
          str "ns:", List.replicate 65535 97]] ∧
    be_value [0, 2] ≠ (List.replicate 65535 97).length + binary_client.prefix_key.length) ∧
    be_value [0, 1, 0, 22] ≠ be_value [0, 2] + 20 :=
  ⟨long_key_request (List.replicate 65535 97) (List.length_replicate 65535 97), by decide⟩

/-- C4, amended: when the operand key and the prefix together are shorter than 2^16
bytes, on a non-empty cluster `binary_incr_decr` makes exactly one vectored write, of
the three segments [request, prefix bytes, key bytes]; the request is 44 bytes: magic
0x80, opcode, key-length field (2 bytes big-endian) = operand-key length + prefix
length, extras length 20, data type 0x00, reserved 0, body-length field (4 bytes
big-endian) = key-length field + 20, opaque 0, CAS 0, then delta (8 bytes big-endian),
initial (8 bytes big-endian), expiration (4 bytes big-endian). -/
theorem binary_request_layout (K : Constants) (E : Collaborators) (ptr : memcached_st)
    (cmd : Nat) (master_key key : List Nat) (offset initial expiration value : Nat)
    (hhosts : ptr.number_of_hosts ≠ 0)
    (hlen : key.length + ptr.prefix_key.length < 2 ^ 16) :
    sent_vectors (binary_incr_decr K E ptr cmd master_key key offset initial expiration value).trace
      = [[binary_frame (quiet_cmd K ptr.no_reply cmd % 256)
            (key.length + ptr.prefix_key.length) offset initial expiration,
          ptr.prefix_key, key]] ∧
    (binary_frame (quiet_cmd K ptr.no_reply cmd % 256)
        (key.length + ptr.prefix_key.length) offset initial expiration).length = 44 ∧
    be_value (be 2 (key.length + ptr.prefix_key.length)) = key.length + ptr.prefix_key.length ∧
    be_value (be 4 (key.length + ptr.prefix_key.length + 20))
      = be_value (be 2 (key.length + ptr.prefix_key.length)) + 20 := by
  refine ⟨?_, ?_, be_value_be_2 _ hlen, ?_⟩
  · rw [binary_incr_decr_sent_vectors K E ptr cmd master_key key offset initial expiration
      value hhosts]
    unfold binary_vector
    rw [request_bytes_eq_frame K ptr cmd key offset initial expiration hlen]
  · simp [binary_frame, be_length]
  · rw [be_value_be_2 _ hlen]
    simp [be, be_value]
    omega

/-- C4, amended, at a decrement of `counter` by 258 with initial value 3 and
expiration 60 under the prefix `ns:`. -/
theorem binary_request_layout_witness :
    (binary_client.number_of_hosts ≠ 0 ∧
      (str "counter").length + binary_client.prefix_key.length < 2 ^ 16) ∧
    sent_vectors (binary_incr_decr library_constants
        (stub MEMCACHED_SUCCESS MEMCACHED_SUCCESS [] 0) binary_client
        library_constants.PROTOCOL_BINARY_CMD_DECREMENT (str "other") (str "counter")
        258 3 60 0).trace
      = [[[0x80, 0x06, 0, 10, 20, 0, 0, 0, 0, 0, 0, 30, 0, 0, 0, 0, 0, 0, 0, 0, 0, 0, 0, 0,
           0, 0, 0, 0, 0, 0, 1, 2, 0, 0, 0, 0, 0, 0, 0, 3, 0, 0, 0, 60],
          str "ns:", str "counter"]] :=
  ⟨⟨by decide, by decide⟩,
   (binary_request_layout library_constants
      (stub MEMCACHED_SUCCESS MEMCACHED_SUCCESS [] 0) binary_client
      library_constants.PROTOCOL_BINARY_CMD_DECREMENT (str "other") (str "counter")
      258 3 60 0 (by decide) (by decide)).1.trans (by decide)⟩

/-! ## Quiet opcode substitution -/

/-- C5: in binary mode, for each public operation that reaches the write (accepted key
length, non-empty cluster), the opcode byte written is `effectiveOpcode verb quiet`:
INCREMENT, INCREMENTQ, DECREMENT or DECREMENTQ by the verb and the quiet flag alone; a
quiet request carries no base opcode, a decrement carries no increment opcode; and when
the operation is quiet and the write succeeds, the response reader is not called and
the result is success. -/
theorem quiet_opcode_substitution (op : PublicOp) (K : Constants) (E : Collaborators)
    (ptr : memcached_st) (master_key key : List Nat) (offset initial : Nat)
    (expiration : Int) (value : Nat)
    (hK : K.opcodes_distinct)
    (hbin : ptr.binary_protocol = true)
    (hvalid : memcached_validate_key_length K key.length ptr.binary_protocol = MEMCACHED_SUCCESS)
    (hhosts : ptr.number_of_hosts ≠ 0) :
    sent_opcodes (op.call K E ptr master_key key offset initial expiration value).trace
      = [effectiveOpcode K op.is_decrement ptr.no_reply] ∧
    (ptr.no_reply = true →
      effectiveOpcode K op.is_decrement ptr.no_reply ≠ K.PROTOCOL_BINARY_CMD_INCREMENT ∧
      effectiveOpcode K op.is_decrement ptr.no_reply ≠ K.PROTOCOL_BINARY_CMD_DECREMENT) ∧
    (op.is_decrement = true →
      effectiveOpcode K op.is_decrement ptr.no_reply ≠ K.PROTOCOL_BINARY_CMD_INCREMENT ∧
      effectiveOpcode K op.is_decrement ptr.no_reply ≠ K.PROTOCOL_BINARY_CMD_INCREMENTQ) ∧
    (ptr.no_reply = true →
      E.memcached_vdo
          (E.memcached_generate_hash_with_redistribution ptr (op.routing_key master_key key))
          (binary_vector K ptr (op.cmd K) key (op.offset_arg offset) (op.initial_arg initial)
            (op.expiration_arg K expiration)) = MEMCACHED_SUCCESS →
      (op.call K E ptr master_key key offset initial expiration value).rc = MEMCACHED_SUCCESS ∧
      recv_count (op.call K E ptr master_key key offset initial expiration value).trace = 0) := by
  rw [call_binary op K E ptr master_key key offset initial expiration value hbin hvalid]
  have hnd := hK.1
  simp only [List.nodup_cons, List.mem_cons, List.mem_singleton, not_or, List.not_mem_nil,
    not_false_eq_true, List.nodup_nil, and_true] at hnd
  obtain ⟨⟨h1, h2, h3⟩, ⟨h4, h5⟩, h6⟩ := hnd
  refine ⟨?_, ?_, ?_, ?_⟩
  · unfold sent_opcodes
    rw [binary_incr_decr_sent_vectors _ _ _ _ _ _ _ _ _ _ hhosts]
    simp only [List.map_cons, List.map_nil, binary_vector_opcode, PublicOp.cmd]
    rw [quiet_cmd_eq_effectiveOpcode K hK, Nat.mod_eq_of_lt (effectiveOpcode_lt K hK _ _)]
  · intro hq
    rw [hq]
    cases op.is_decrement
    · exact ⟨fun h => h2 h.symm, fun h => h4 h.symm⟩
    · exact ⟨fun h => h3 h.symm, fun h => h5 h.symm⟩
  · intro hd
    rw [hd]
    cases ptr.no_reply
    · exact ⟨fun h => h1 h.symm, fun h => h4 h⟩
    · exact ⟨fun h => h3 h.symm, fun h => h6 h.symm⟩
  · intro hq hw
    unfold binary_incr_decr
    rw [if_neg hhosts]
    simp [hw, hq, recv_count]

/-- C5, at a quiet `memcached_decrement_with_initial` with the constants of the
library: the opcode byte sent is DECREMENTQ (0x16), the result is success and the
reader is not called. -/
theorem quiet_opcode_substitution_witness :
    (library_constants.opcodes_distinct ∧
      memcached_validate_key_length library_constants (str "counter").length true
        = MEMCACHED_SUCCESS) ∧
    sent_opcodes (memcached_decrement_with_initial library_constants
        (stub MEMCACHED_SUCCESS MEMCACHED_SUCCESS [] 0)
        { binary_client with no_reply := true } (str "counter") 2 10 60 0).trace = [0x16] ∧
    (memcached_decrement_with_initial library_constants
        (stub MEMCACHED_SUCCESS MEMCACHED_SUCCESS [] 0)
        { binary_client with no_reply := true } (str "counter") 2 10 60 0).rc
      = MEMCACHED_SUCCESS :=
  have h := quiet_opcode_substitution PublicOp.decrement_with_initial library_constants
    (stub MEMCACHED_SUCCESS MEMCACHED_SUCCESS [] 0)
    { binary_client with no_reply := true } [] (str "counter") 2 10 60 0
    (by decide) rfl (by decide) (by decide)
  ⟨⟨by decide, by decide⟩, h.1, (h.2.2.2 rfl rfl).1⟩

/-! ## Empty cluster -/

/-- C6, as stated, fails: the key length is validated before the server count is
read, and the with_initial forms refuse text mode before it is read.  On an empty
cluster in text mode `memcached_increment` with an empty key returns bad_key, and
`memcached_increment_with_initial` with the key `counter` returns protocol_error. -/
theorem empty_cluster_counterexample :
    empty_text_client.number_of_hosts = 0 ∧
    (memcached_increment library_constants (stub MEMCACHED_SUCCESS MEMCACHED_SUCCESS [] 0)
        empty_text_client [] 1 0).rc = MEMCACHED_BAD_KEY_PROVIDED ∧
    (memcached_increment library_constants (stub MEMCACHED_SUCCESS MEMCACHED_SUCCESS [] 0)
        empty_text_client [] 1 0).rc ≠ MEMCACHED_NO_SERVERS ∧
    (memcached_increment_with_initial library_constants
        (stub MEMCACHED_SUCCESS MEMCACHED_SUCCESS [] 0)
        empty_text_client (str "counter") 1 0 0 0).rc = MEMCACHED_PROTOCOL_ERROR := by
  decide

/-- C6, amended: on a cluster with zero server instances every public operation
makes no router or transport call; it returns bad_key when the length of the operand
key is zero or over the maximum of the protocol, else protocol_error when it is a
with_initial form in text mode, else no_servers. -/
theorem empty_cluster (op : PublicOp) (K : Constants) (E : Collaborators)
    (ptr : memcached_st) (master_key key : List Nat) (offset initial : Nat)
    (expiration : Int) (value : Nat)
    (hhosts : ptr.number_of_hosts = 0) :
    (op.call K E ptr master_key key offset initial expiration value).trace = [] ∧
    (op.call K E ptr master_key key offset initial expiration value).rc =
      if key.length = 0 ∨
          (if ptr.binary_protocol then K.MEMCACHED_MAX_KEY_BINARY
            else K.MEMCACHED_MAX_KEY_TEXT) < key.length then
        MEMCACHED_BAD_KEY_PROVIDED
      else if ptr.binary_protocol = false ∧ op.with_initial = true then MEMCACHED_PROTOCOL_ERROR
      else MEMCACHED_NO_SERVERS := by
  by_cases hbad : key.length = 0 ∨
      (if ptr.binary_protocol then K.MEMCACHED_MAX_KEY_BINARY
        else K.MEMCACHED_MAX_KEY_TEXT) < key.length
  · rw [call_rejected op K E ptr master_key key offset initial expiration value
      ((validate_rejects_iff K _ _).2 hbad), if_pos hbad]
    exact ⟨rfl, validate_rejects_eq K _ _ hbad⟩
  · have hok : memcached_validate_key_length K key.length ptr.binary_protocol
        = MEMCACHED_SUCCESS := by
      by_contra hne
      exact hbad ((validate_rejects_iff K _ _).1 hne)
    rw [if_neg hbad]
    cases hb : ptr.binary_protocol with
    | true =>
      rw [call_binary op K E ptr master_key key offset initial expiration value hb hok]
      unfold binary_incr_decr
      rw [if_pos hhosts]
      simp
    | false =>
      rw [call_text op K E ptr master_key key offset initial expiration value hb hok]
      cases hw : op.with_initial with
      | true => simp
      | false =>
        unfold text_incr_decr
        rw [if_pos hhosts]
        simp

/-- C6, amended, at `memcached_decrement_by_key` on an empty cluster in text mode. -/
theorem empty_cluster_witness :
    empty_text_client.number_of_hosts = 0 ∧
    (memcached_decrement_by_key library_constants
        (stub MEMCACHED_SUCCESS MEMCACHED_SUCCESS [] 0)
        empty_text_client (str "other") (str "counter") 1 0).trace = [] ∧
    (memcached_decrement_by_key library_constants
        (stub MEMCACHED_SUCCESS MEMCACHED_SUCCESS [] 0)
        empty_text_client (str "other") (str "counter") 1 0).rc = MEMCACHED_NO_SERVERS :=
  have h := empty_cluster PublicOp.decrement_by_key library_constants
    (stub MEMCACHED_SUCCESS MEMCACHED_SUCCESS [] 0)
    empty_text_client (str "other") (str "counter") 1 0 0 0 rfl
  ⟨rfl, h.1, h.2.trans (by decide)⟩

/-! ## With-initial under text mode -/

/-- C7, as stated, fails for an operand key of rejected length: in text mode
`memcached_increment_with_initial` with an empty key returns bad_key, not
protocol_error. -/
theorem with_initial_text_counterexample :
    text_client.binary_protocol = false ∧
    (memcached_increment_with_initial library_constants
        (stub MEMCACHED_SUCCESS MEMCACHED_SUCCESS [] 0) text_client [] 1 0 0 0).rc
      = MEMCACHED_BAD_KEY_PROVIDED ∧
    (memcached_increment_with_initial library_constants
        (stub MEMCACHED_SUCCESS MEMCACHED_SUCCESS [] 0) text_client [] 1 0 0 0).rc
      ≠ MEMCACHED_PROTOCOL_ERROR := by
  decide

/-- C7, amended: with binary_protocol off, for every input the with_initial forms
(`memcached_increment_with_initial`, `memcached_increment_with_initial_by_key` and the
decrement counterparts) make no transport call and leave the value untouched; they
return protocol_error when the length of the operand key is accepted, and bad_key when
it is zero or over the maximum of the text protocol. -/
theorem with_initial_text (op : PublicOp) (K : Constants) (E : Collaborators)
    (ptr : memcached_st) (master_key key : List Nat) (offset initial : Nat)
    (expiration : Int) (value : Nat)
    (hop : op.with_initial = true)
    (htext : ptr.binary_protocol = false) :
    (op.call K E ptr master_key key offset initial expiration value).trace = [] ∧
    (op.call K E ptr master_key key offset initial expiration value).value = value ∧
    (op.call K E ptr master_key key offset initial expiration value).rc =
      if key.length = 0 ∨ K.MEMCACHED_MAX_KEY_TEXT < key.length then MEMCACHED_BAD_KEY_PROVIDED
      else MEMCACHED_PROTOCOL_ERROR := by
  have hmax : (if ptr.binary_protocol then K.MEMCACHED_MAX_KEY_BINARY
      else K.MEMCACHED_MAX_KEY_TEXT) = K.MEMCACHED_MAX_KEY_TEXT := by simp [htext]
  by_cases hbad : key.length = 0 ∨ K.MEMCACHED_MAX_KEY_TEXT < key.length
  · have hbad2 : key.length = 0 ∨ (if ptr.binary_protocol then K.MEMCACHED_MAX_KEY_BINARY
        else K.MEMCACHED_MAX_KEY_TEXT) < key.length := by rw [hmax]; exact hbad
    rw [call_rejected op K E ptr master_key key offset initial expiration value
      ((validate_rejects_iff K _ _).2 hbad2), if_pos hbad]
    exact ⟨rfl, rfl, validate_rejects_eq K _ _ hbad2⟩
  · have hok : memcached_validate_key_length K key.length ptr.binary_protocol
        = MEMCACHED_SUCCESS := by
      by_contra hne
      have := (validate_rejects_iff K _ _).1 hne
      rw [hmax] at this
      exact hbad this
    rw [call_text op K E ptr master_key key offset initial expiration value htext hok,
      if_neg hbad, hop]
    simp

/-- C7, amended, at `memcached_decrement_with_initial_by_key` in text mode. -/
theorem with_initial_text_witness :
    (PublicOp.decrement_with_initial_by_key.with_initial = true ∧
      text_client.binary_protocol = false) ∧
    (memcached_decrement_with_initial_by_key library_constants
        (stub MEMCACHED_SUCCESS MEMCACHED_SUCCESS [] 0)
        text_client (str "other") (str "counter") 1 5 60 0).trace = [] ∧
    (memcached_decrement_with_initial_by_key library_constants
        (stub MEMCACHED_SUCCESS MEMCACHED_SUCCESS [] 0)
        text_client (str "other") (str "counter") 1 5 60 0).rc = MEMCACHED_PROTOCOL_ERROR :=
  have h := with_initial_text PublicOp.decrement_with_initial_by_key library_constants
    (stub MEMCACHED_SUCCESS MEMCACHED_SUCCESS [] 0)
    text_client (str "other") (str "counter") 1 5 60 0 rfl rfl
  ⟨⟨rfl, rfl⟩, h.1, h.2.2.trans (by decide)⟩

/-! ## Key-length rejection -/

/-- C8: for every public operation and every operand key whose length is zero or
exceeds the maximum of the protocol in use, the result is bad_key and the trace of
router and transport calls is empty. -/
theorem key_length_rejection (op : PublicOp) (K : Constants) (E : Collaborators)
    (ptr : memcached_st) (master_key key : List Nat) (offset initial : Nat)
    (expiration : Int) (value : Nat)
    (hbad : key.length = 0 ∨
      (if ptr.binary_protocol then K.MEMCACHED_MAX_KEY_BINARY
        else K.MEMCACHED_MAX_KEY_TEXT) < key.length) :
    (op.call K E ptr master_key key offset initial expiration value).rc
      = MEMCACHED_BAD_KEY_PROVIDED ∧
    (op.call K E ptr master_key key offset initial expiration value).trace = [] := by
  rw [call_rejected op K E ptr master_key key offset initial expiration value
    ((validate_rejects_iff K _ _).2 hbad)]
  exact ⟨validate_rejects_eq K _ _ hbad, rfl⟩

/-- C8, at a key of 251 bytes in text mode, one over the maximum of 250. -/
theorem key_length_rejection_witness :
    library_constants.MEMCACHED_MAX_KEY_TEXT < (List.replicate 251 97).length ∧
    (memcached_increment library_constants (stub MEMCACHED_SUCCESS MEMCACHED_SUCCESS [] 0)
        text_client (List.replicate 251 97) 1 0).rc = MEMCACHED_BAD_KEY_PROVIDED ∧
    (memcached_increment library_constants (stub MEMCACHED_SUCCESS MEMCACHED_SUCCESS [] 0)
        text_client (List.replicate 251 97) 1 0).trace = [] :=
  ⟨by rw [List.length_replicate]; decide,
   key_length_rejection PublicOp.increment library_constants
      (stub MEMCACHED_SUCCESS MEMCACHED_SUCCESS [] 0)
      text_client [] (List.replicate 251 97) 1 0 0 0
      (Or.inr (by rw [List.length_replicate]; decide))⟩

/-! ## Binary write failure -/

/-- C9: when the three-segment write of `binary_incr_decr` reports a status other
than success, quiet or not, the trace is the hashing, the write, then one reset of the
routed instance; the response reader is not called, the value is untouched, and the
status returned is the one the transport reported, which is not success. -/
theorem binary_write_failure (K : Constants) (E : Collaborators) (ptr : memcached_st)
    (cmd : Nat) (master_key key : List Nat) (offset initial expiration value : Nat)
    (hhosts : ptr.number_of_hosts ≠ 0)
    (hfail : E.memcached_vdo (E.memcached_generate_hash_with_redistribution ptr master_key)
      (binary_vector K ptr cmd key offset initial expiration) ≠ MEMCACHED_SUCCESS) :
    (binary_incr_decr K E ptr cmd master_key key offset initial expiration value).trace
      = [Event.hash master_key,
         Event.vsend (E.memcached_generate_hash_with_redistribution ptr master_key)
           (binary_vector K ptr cmd key offset initial expiration),
         Event.reset (E.memcached_generate_hash_with_redistribution ptr master_key)] ∧
    recv_count (binary_incr_decr K E ptr cmd master_key key offset initial expiration value).trace
      = 0 ∧
    (binary_incr_decr K E ptr cmd master_key key offset initial expiration value).rc
      = E.memcached_vdo (E.memcached_generate_hash_with_redistribution ptr master_key)
          (binary_vector K ptr cmd key offset initial expiration) ∧
    (binary_incr_decr K E ptr cmd master_key key offset initial expiration value).rc
      ≠ MEMCACHED_SUCCESS ∧
    (binary_incr_decr K E ptr cmd master_key key offset initial expiration value).value
      = value := by
  unfold binary_incr_decr
  rw [if_neg hhosts]
  simp [hfail, recv_count]

/-- C9, at a quiet increment whose write reports write_failure. -/
theorem binary_write_failure_witness :
    (stub MEMCACHED_WRITE_FAILURE MEMCACHED_SUCCESS [] 0).memcached_vdo 1
        (binary_vector library_constants { binary_client with no_reply := true }
          library_constants.PROTOCOL_BINARY_CMD_INCREMENT (str "counter") 1 0 0)
      ≠ MEMCACHED_SUCCESS ∧
    (binary_incr_decr library_constants (stub MEMCACHED_WRITE_FAILURE MEMCACHED_SUCCESS [] 0)
        { binary_client with no_reply := true }
        library_constants.PROTOCOL_BINARY_CMD_INCREMENT [1] (str "counter") 1 0 0 7).trace
      = [Event.hash [1],
         Event.vsend 1 (binary_vector library_constants { binary_client with no_reply := true }
           library_constants.PROTOCOL_BINARY_CMD_INCREMENT (str "counter") 1 0 0),
         Event.reset 1] ∧
    (binary_incr_decr library_constants (stub MEMCACHED_WRITE_FAILURE MEMCACHED_SUCCESS [] 0)
        { binary_client with no_reply := true }
        library_constants.PROTOCOL_BINARY_CMD_INCREMENT [1] (str "counter") 1 0 0 7).rc
      = MEMCACHED_WRITE_FAILURE :=
  have h := binary_write_failure library_constants
    (stub MEMCACHED_WRITE_FAILURE MEMCACHED_SUCCESS [] 0)
    { binary_client with no_reply := true }
    library_constants.PROTOCOL_BINARY_CMD_INCREMENT [1] (str "counter") 1 0 0 7
    (by decide) (by decide)
  ⟨by decide, h.1, h.2.2.1⟩

/-! ## Quiet text operations -/

/-- C10, as stated, fails: a quiet text increment whose send reports write_failure
returns write_failure, not success, and so differs from one whose send succeeded. -/
theorem text_quiet_counterexample :
    TextSends library_constants (stub MEMCACHED_WRITE_FAILURE MEMCACHED_SUCCESS [] 0)
        { text_client with no_reply := true } (str "incr") (str "counter") 1 ∧
    (memcached_increment library_constants (stub MEMCACHED_WRITE_FAILURE MEMCACHED_SUCCESS [] 0)
        { text_client with no_reply := true } (str "counter") 1 0).rc
      = MEMCACHED_WRITE_FAILURE ∧
    (memcached_increment library_constants (stub MEMCACHED_SUCCESS MEMCACHED_SUCCESS [] 0)
        { text_client with no_reply := true } (str "counter") 1 0).rc = MEMCACHED_SUCCESS ∧
    (memcached_increment library_constants (stub MEMCACHED_WRITE_FAILURE MEMCACHED_SUCCESS [] 0)
        { text_client with no_reply := true } (str "counter") 1 0).rc
      ≠ (memcached_increment library_constants (stub MEMCACHED_SUCCESS MEMCACHED_SUCCESS [] 0)
        { text_client with no_reply := true } (str "counter") 1 0).rc := by
  decide

/-- C10, amended: for every quiet text-protocol call that reaches the send step, the
response reader is not called, the value is untouched, and the call returns the status
the send reported: success when the send succeeded, the reported failure otherwise. -/
theorem text_quiet (K : Constants) (E : Collaborators) (ptr : memcached_st)
    (verb master_key key : List Nat) (offset value : Nat)
    (hsends : TextSends K E ptr verb key offset)
    (hquiet : ptr.no_reply = true) :
    (text_incr_decr K E ptr verb master_key key offset value).trace
      = [Event.hash master_key,
         Event.send (E.memcached_generate_hash_with_redistribution ptr master_key)
           (text_request ptr verb key offset)] ∧
    recv_count (text_incr_decr K E ptr verb master_key key offset value).trace = 0 ∧
    (text_incr_decr K E ptr verb master_key key offset value).rc
      = E.memcached_do (E.memcached_generate_hash_with_redistribution ptr master_key)
          (text_request ptr verb key offset) ∧
    (text_incr_decr K E ptr verb master_key key offset value).value = value := by
  obtain ⟨h1, h2, h3, h4⟩ := hsends
  unfold text_incr_decr
  rw [if_neg h1, h2]
  simp only [Bool.false_eq_true, if_false]
  rw [if_neg (by omega)]
  simp [hquiet, recv_count]

/-- C10, amended, at a quiet `decr ns:counter 1 noreply` whose send reports
write_failure. -/
theorem text_quiet_witness :
    TextSends library_constants (stub MEMCACHED_WRITE_FAILURE MEMCACHED_SUCCESS [] 0)
        { text_client with no_reply := true } (str "decr") (str "counter") 1 ∧
    recv_count (text_incr_decr library_constants
        (stub MEMCACHED_WRITE_FAILURE MEMCACHED_SUCCESS [] 0)
        { text_client with no_reply := true } (str "decr") (str "other") (str "counter")
        1 7).trace = 0 ∧
    (text_incr_decr library_constants (stub MEMCACHED_WRITE_FAILURE MEMCACHED_SUCCESS [] 0)
        { text_client with no_reply := true } (str "decr") (str "other") (str "counter")
        1 7).rc = MEMCACHED_WRITE_FAILURE :=
  have h := text_quiet library_constants (stub MEMCACHED_WRITE_FAILURE MEMCACHED_SUCCESS [] 0)
    { text_client with no_reply := true } (str "decr") (str "other") (str "counter") 1 7
    (by decide) rfl
  ⟨by decide, h.2.1, h.2.2.1⟩

/-! ## Validation of the two keys -/

/-- C11, as stated, fails: the routing key is hashed and never validated.  In both
protocol modes `memcached_increment_by_key` with an empty routing key and the operand
key `counter` performs its send and returns success, not bad_key. -/
theorem both_keys_validated_counterexample :
    memcached_validate_key_length library_constants ([] : List Nat).length false
      = MEMCACHED_BAD_KEY_PROVIDED ∧
    send_count (memcached_increment_by_key library_constants
        (stub MEMCACHED_SUCCESS MEMCACHED_SUCCESS (str "2\r\n") 2)
        text_client [] (str "counter") 1 0).trace = 1 ∧
    (memcached_increment_by_key library_constants
        (stub MEMCACHED_SUCCESS MEMCACHED_SUCCESS (str "2\r\n") 2)
        text_client [] (str "counter") 1 0).rc = MEMCACHED_SUCCESS ∧
    send_count (memcached_increment_by_key library_constants
        (stub MEMCACHED_SUCCESS MEMCACHED_SUCCESS (str "2\r\n") 2)
        binary_client [] (str "counter") 1 0).trace = 1 ∧
    (memcached_increment_by_key library_constants
        (stub MEMCACHED_SUCCESS MEMCACHED_SUCCESS (str "2\r\n") 2)
        binary_client [] (str "counter") 1 0).rc = MEMCACHED_SUCCESS := by
  decide

/-- C11, amended: for every public operation, in either protocol mode, if a transport
send is performed then the length of the operand key is not zero and not over the
maximum of the protocol in use.  The routing key is not validated, it is only hashed:
status, value and transport calls are the same for any two routing keys whose hash
selects the same instance, whatever their lengths; and whatever the routing key, the
send is performed in binary mode once the operand key is accepted and the cluster is
not empty, and in text mode for the plain forms once the request reaches the send
step. -/
theorem operand_key_validated (op : PublicOp) (K : Constants) (E : Collaborators)
    (ptr : memcached_st) (master_key key : List Nat) (offset initial : Nat)
    (expiration : Int) (value : Nat) :
    (send_count (op.call K E ptr master_key key offset initial expiration value).trace ≠ 0 →
      key.length ≠ 0 ∧
      key.length ≤ (if ptr.binary_protocol then K.MEMCACHED_MAX_KEY_BINARY
        else K.MEMCACHED_MAX_KEY_TEXT)) ∧
    (∀ other_key : List Nat,
      E.memcached_generate_hash_with_redistribution ptr other_key
        = E.memcached_generate_hash_with_redistribution ptr master_key →
      (op.call K E ptr other_key key offset initial expiration value).rc
        = (op.call K E ptr master_key key offset initial expiration value).rc ∧
      (op.call K E ptr other_key key offset initial expiration value).value
        = (op.call K E ptr master_key key offset initial expiration value).value ∧
      transport_calls (op.call K E ptr other_key key offset initial expiration value).trace
        = transport_calls
            (op.call K E ptr master_key key offset initial expiration value).trace) ∧
    (ptr.binary_protocol = true →
      memcached_validate_key_length K key.length ptr.binary_protocol = MEMCACHED_SUCCESS →
      ptr.number_of_hosts ≠ 0 →
      send_count (op.call K E ptr master_key key offset initial expiration value).trace = 1) ∧
    (ptr.binary_protocol = false →
      op.with_initial = false →
      memcached_validate_key_length K key.length ptr.binary_protocol = MEMCACHED_SUCCESS →
      TextSends K E ptr (if op.is_decrement then str "decr" else str "incr") key
        (op.offset_arg offset) →
      send_count (op.call K E ptr master_key key offset initial expiration value).trace
        = 1) := by
  refine ⟨?_, ?_, ?_, ?_⟩
  · intro hsend
    by_contra hcon
    have hbad : key.length = 0 ∨
        (if ptr.binary_protocol then K.MEMCACHED_MAX_KEY_BINARY
          else K.MEMCACHED_MAX_KEY_TEXT) < key.length := by
      by_cases h0 : key.length = 0
      · exact Or.inl h0
      · right
        by_contra hle
        exact hcon ⟨h0, by omega⟩
    rw [call_rejected op K E ptr master_key key offset initial expiration value
      ((validate_rejects_iff K _ _).2 hbad)] at hsend
    exact hsend rfl
  · intro other_key hhash
    exact call_routing op K E ptr other_key master_key key offset initial expiration value hhash
  · intro hbin hvalid hhosts
    rw [call_binary op K E ptr master_key key offset initial expiration value hbin hvalid]
    exact binary_incr_decr_send_count _ _ _ _ _ _ _ _ _ _ hhosts
  · intro htext hplain hvalid hsends
    rw [call_text op K E ptr master_key key offset initial expiration value htext hvalid,
      hplain]
    simp only [Bool.false_eq_true, if_false]
    exact text_incr_decr_send_count _ _ _ _ _ _ _ _ hsends

set_option maxRecDepth 20000 in
/-- C11, amended, at `memcached_decrement_by_key`: in binary mode with an empty routing
key the send is performed and the operand key `counter` is within the limits; in text
mode a routing key of 300 bytes, over the maximum of 250, has the hash of `user42`
and gives the same status, success, and the send is performed. -/
theorem operand_key_validated_witness :
    (send_count (memcached_decrement_by_key library_constants
        (stub MEMCACHED_SUCCESS MEMCACHED_SUCCESS [] 2)
        binary_client [] (str "counter") 1 0).trace ≠ 0 ∧
      (str "counter").length ≠ 0 ∧
      (str "counter").length ≤ library_constants.MEMCACHED_MAX_KEY_BINARY) ∧
    (library_constants.MEMCACHED_MAX_KEY_TEXT < (List.replicate 300 97).length ∧
      (memcached_decrement_by_key library_constants
          (stub MEMCACHED_SUCCESS MEMCACHED_SUCCESS (str "2\r\n") 2)
          text_client (List.replicate 300 97) (str "counter") 1 0).rc
        = (memcached_decrement_by_key library_constants
          (stub MEMCACHED_SUCCESS MEMCACHED_SUCCESS (str "2\r\n") 2)
          text_client (str "user42") (str "counter") 1 0).rc ∧
      (memcached_decrement_by_key library_constants
          (stub MEMCACHED_SUCCESS MEMCACHED_SUCCESS (str "2\r\n") 2)
          text_client (str "user42") (str "counter") 1 0).rc = MEMCACHED_SUCCESS ∧
      send_count (memcached_decrement_by_key library_constants
          (stub MEMCACHED_SUCCESS MEMCACHED_SUCCESS (str "2\r\n") 2)
          text_client (List.replicate 300 97) (str "counter") 1 0).trace = 1) :=
  ⟨⟨by decide,
    (operand_key_validated PublicOp.decrement_by_key library_constants
      (stub MEMCACHED_SUCCESS MEMCACHED_SUCCESS [] 2)
      binary_client [] (str "counter") 1 0 0 0).1 (by decide)⟩,
   by rw [List.length_replicate]; decide,
   ((operand_key_validated PublicOp.decrement_by_key library_constants
      (stub MEMCACHED_SUCCESS MEMCACHED_SUCCESS (str "2\r\n") 2)
      text_client (str "user42") (str "counter") 1 0 0 0).2.1
      (List.replicate 300 97) (by decide)).1,
   by decide,
   (operand_key_validated PublicOp.decrement_by_key library_constants
      (stub MEMCACHED_SUCCESS MEMCACHED_SUCCESS (str "2\r\n") 2)
      text_client (List.replicate 300 97) (str "counter") 1 0 0 0).2.2.2
      rfl rfl (by decide) (by decide)⟩

/-! ## Size bound of the text request -/

/-- C12, as stated, fails in the direction from the status to the length: the status
of a failed send is returned as it is, so a line that fits the buffer and whose send
reports write_failure also gives write_failure, after the send was invoked. -/
theorem text_encode_size_bound_counterexample :
    (text_request text_client (str "incr") (str "counter") 1).length
      < library_constants.MEMCACHED_DEFAULT_COMMAND_SIZE ∧
    (text_incr_decr library_constants (stub MEMCACHED_WRITE_FAILURE MEMCACHED_SUCCESS [] 0)
        text_client (str "incr") (str "counter") (str "counter") 1 0).rc
      = MEMCACHED_WRITE_FAILURE ∧
    send_count (text_incr_decr library_constants
        (stub MEMCACHED_WRITE_FAILURE MEMCACHED_SUCCESS [] 0)
        text_client (str "incr") (str "counter") (str "counter") 1 0).trace = 1 := by
  decide

/-- C12, amended: on a non-empty cluster, with an operand key the key test lets
through, when the formatted request line has length at least
MEMCACHED_DEFAULT_COMMAND_SIZE or formatting reports an error, `text_incr_decr` returns
write_failure and invokes neither send nor read; otherwise the line sent is strictly
shorter than the command buffer; and the status is write_failure exactly when the line
does not fit (or formatting fails) or the send itself reports write_failure. -/
theorem text_encode_size_bound (K : Constants) (E : Collaborators) (ptr : memcached_st)
    (verb master_key key : List Nat) (offset value : Nat)
    (hhosts : ptr.number_of_hosts ≠ 0)
    (htest : (ptr.verify_key && (E.memcached_key_test key == MEMCACHED_BAD_KEY_PROVIDED)) = false) :
    ((K.MEMCACHED_DEFAULT_COMMAND_SIZE ≤ (text_request ptr verb key offset).length ∨
        2 ^ 31 ≤ (text_request ptr verb key offset).length) →
      (text_incr_decr K E ptr verb master_key key offset value).rc = MEMCACHED_WRITE_FAILURE ∧
      send_count (text_incr_decr K E ptr verb master_key key offset value).trace = 0 ∧
      recv_count (text_incr_decr K E ptr verb master_key key offset value).trace = 0) ∧
    (¬ (K.MEMCACHED_DEFAULT_COMMAND_SIZE ≤ (text_request ptr verb key offset).length ∨
        2 ^ 31 ≤ (text_request ptr verb key offset).length) →
      sent_lines (text_incr_decr K E ptr verb master_key key offset value).trace
        = [text_request ptr verb key offset] ∧
      (text_request ptr verb key offset).length < K.MEMCACHED_DEFAULT_COMMAND_SIZE) ∧
    ((text_incr_decr K E ptr verb master_key key offset value).rc = MEMCACHED_WRITE_FAILURE ↔
      (K.MEMCACHED_DEFAULT_COMMAND_SIZE ≤ (text_request ptr verb key offset).length ∨
        2 ^ 31 ≤ (text_request ptr verb key offset).length) ∨
      E.memcached_do (E.memcached_generate_hash_with_redistribution ptr master_key)
        (text_request ptr verb key offset) = MEMCACHED_WRITE_FAILURE) := by
  rw [text_incr_decr_after_checks K E ptr verb master_key key offset value hhosts htest]
  by_cases hlong : K.MEMCACHED_DEFAULT_COMMAND_SIZE ≤ (text_request ptr verb key offset).length ∨
      2 ^ 31 ≤ (text_request ptr verb key offset).length
  · rw [if_pos hlong]
    exact ⟨fun _ => ⟨rfl, rfl, rfl⟩, fun h => absurd hlong h, ⟨fun _ => Or.inl hlong, fun _ => rfl⟩⟩
  · rw [if_neg hlong]
    by_cases hq : ptr.no_reply = true ∨
        E.memcached_do (E.memcached_generate_hash_with_redistribution ptr master_key)
          (text_request ptr verb key offset) ≠ MEMCACHED_SUCCESS
    · rw [if_pos hq]
      refine ⟨fun h => absurd h hlong, fun _ => ⟨rfl, by omega⟩, ?_⟩
      constructor
      · intro h; exact Or.inr h
      · intro h
        rcases h with h | h
        · exact absurd h hlong
        · exact h
    · rw [if_neg hq]
      refine ⟨fun h => absurd h hlong, fun _ => ⟨rfl, by omega⟩, ?_⟩
      have hdo : E.memcached_do (E.memcached_generate_hash_with_redistribution ptr master_key)
          (text_request ptr verb key offset) = MEMCACHED_SUCCESS := by
        by_contra hne
        exact hq (Or.inr hne)
      constructor
      · intro h
        exfalso
        have h2 : (text_classify (text_response K E ptr verb master_key key offset)).1
            = MEMCACHED_WRITE_FAILURE := h
        rcases classify_status (text_response K E ptr verb master_key key offset) with c | c | c
          <;> rw [c] at h2 <;> cases h2
      · intro h
        rcases h with h | h
        · exact absurd h hlong
        · rw [hdo] at h
          exact absurd h (by decide)

set_option maxRecDepth 20000 in
/-- C12, amended, at a key of 400 bytes handed to `text_incr_decr`: the line does not
fit the 350 bytes of the command buffer. -/
theorem text_encode_size_bound_witness :
    (text_client.number_of_hosts ≠ 0 ∧
      (text_client.verify_key &&
        ((stub MEMCACHED_SUCCESS MEMCACHED_SUCCESS [] 0).memcached_key_test
          (List.replicate 400 97) == MEMCACHED_BAD_KEY_PROVIDED)) = false) ∧
    (text_incr_decr library_constants (stub MEMCACHED_SUCCESS MEMCACHED_SUCCESS [] 0)
        text_client (str "incr") (str "other") (List.replicate 400 97) 1 0).rc
      = MEMCACHED_WRITE_FAILURE :=
  ⟨⟨by decide, rfl⟩,
   ((text_encode_size_bound library_constants (stub MEMCACHED_SUCCESS MEMCACHED_SUCCESS [] 0)
      text_client (str "incr") (str "other") (List.replicate 400 97) 1 0
      (by decide) rfl).1 (Or.inl (by decide))).1⟩

/-! ## Routing -/

/-- C13: for one client handle (a fixed cluster configuration), any two calls of by_key
operations with the same routing key direct every transport call to the same server
instance, the one the hash of the routing key selects, whatever the operations, the
operand keys, the deltas, the initial values and the expirations; two identical calls
are the case of equal arguments. -/
theorem routing_depends_on_routing_key (op1 op2 : PublicOp) (K : Constants)
    (E : Collaborators) (ptr : memcached_st) (master_key key1 key2 : List Nat)
    (offset1 offset2 initial1 initial2 : Nat) (expiration1 expiration2 : Int)
    (value1 value2 : Nat)
    (h1 : op1.by_key = true) (h2 : op2.by_key = true) :
    (∀ s ∈ servers (op1.call K E ptr master_key key1 offset1 initial1 expiration1 value1).trace,
      s = E.memcached_generate_hash_with_redistribution ptr master_key) ∧
    (∀ s1 ∈ servers (op1.call K E ptr master_key key1 offset1 initial1 expiration1 value1).trace,
      ∀ s2 ∈ servers (op2.call K E ptr master_key key2 offset2 initial2 expiration2 value2).trace,
        s1 = s2) := by
  have r1 : op1.routing_key master_key key1 = master_key := by simp [PublicOp.routing_key, h1]
  have r2 : op2.routing_key master_key key2 = master_key := by simp [PublicOp.routing_key, h2]
  have a := call_servers op1 K E ptr master_key key1 offset1 initial1 expiration1 value1
  have b := call_servers op2 K E ptr master_key key2 offset2 initial2 expiration2 value2
  rw [r1] at a
  rw [r2] at b
  exact ⟨a, fun s1 hs1 s2 hs2 => (a s1 hs1).trans (b s2 hs2).symm⟩

/-- C13, at `memcached_increment_by_key` of `counter` and `memcached_decrement_by_key`
of `visits` in text mode, both routed on `user42`: the send and the read of both calls
go to instance 0. -/
theorem routing_depends_on_routing_key_witness :
    (PublicOp.increment_by_key.by_key = true ∧ PublicOp.decrement_by_key.by_key = true) ∧
    servers (memcached_increment_by_key library_constants
        (stub MEMCACHED_SUCCESS MEMCACHED_SUCCESS (str "2\r\n") 2)
        text_client (str "user42") (str "counter") 1 0).trace = [0, 0] ∧
    servers (memcached_decrement_by_key library_constants
        (stub MEMCACHED_SUCCESS MEMCACHED_SUCCESS (str "2\r\n") 2)
        text_client (str "user42") (str "visits") 5 0).trace = [0, 0] ∧
    (0 : Nat) = (stub MEMCACHED_SUCCESS MEMCACHED_SUCCESS (str "2\r\n") 2
      ).memcached_generate_hash_with_redistribution text_client (str "user42") :=
  ⟨⟨rfl, rfl⟩, by decide, by decide,
   (routing_depends_on_routing_key PublicOp.increment_by_key PublicOp.decrement_by_key
      library_constants (stub MEMCACHED_SUCCESS MEMCACHED_SUCCESS (str "2\r\n") 2)
      text_client (str "user42") (str "counter") (str "visits") 1 5 0 0 0 0 0 0 rfl rfl).1
      0 (by decide)⟩

/-! ## Self-keyed forms -/

/-- C14: for every client state, key and 32-bit delta, `memcached_increment` gives the
outcome (status, value, trace) of `memcached_increment_by_key` with the key as routing
key and as operand key and the same delta; likewise `memcached_decrement`; and for
every delta, initial value and expiration `memcached_increment_with_initial` and
`memcached_decrement_with_initial` give the outcome of their by_key forms. -/
theorem self_keyed_forms (K : Constants) (E : Collaborators) (ptr : memcached_st)
    (key : List Nat) (delta offset initial : Nat) (expiration : Int) (value : Nat)
    (hdelta : delta < 2 ^ 32) :
    memcached_increment K E ptr key delta value
      = memcached_increment_by_key K E ptr key key delta value ∧
    memcached_decrement K E ptr key delta value
      = memcached_decrement_by_key K E ptr key key delta value ∧
    memcached_increment_with_initial K E ptr key offset initial expiration value
      = memcached_increment_with_initial_by_key K E ptr key key offset initial expiration
          value ∧
    memcached_decrement_with_initial K E ptr key offset initial expiration value
      = memcached_decrement_with_initial_by_key K E ptr key key offset initial expiration
          value := by
  refine ⟨?_, ?_, rfl, rfl⟩
  · unfold memcached_increment
    rw [Nat.mod_eq_of_lt hdelta]
  · unfold memcached_decrement
    rw [Nat.mod_eq_of_lt hdelta]

/-- C14, at the largest 32-bit delta in text mode: `memcached_increment` sends
`incr ns:counter 4294967295\r\n`, as `memcached_increment_by_key` does. -/
theorem self_keyed_forms_witness :
    (4294967295 : Nat) < 2 ^ 32 ∧
    memcached_increment library_constants
        (stub MEMCACHED_SUCCESS MEMCACHED_SUCCESS (str "7\r\n") 0)
        text_client (str "counter") 4294967295 0
      = memcached_increment_by_key library_constants
        (stub MEMCACHED_SUCCESS MEMCACHED_SUCCESS (str "7\r\n") 0)
        text_client (str "counter") (str "counter") 4294967295 0 ∧
    sent_lines (memcached_increment library_constants
        (stub MEMCACHED_SUCCESS MEMCACHED_SUCCESS (str "7\r\n") 0)
        text_client (str "counter") 4294967295 0).trace
      = [str "incr ns:counter 4294967295\r\n"] :=
  ⟨by decide,
   (self_keyed_forms library_constants
      (stub MEMCACHED_SUCCESS MEMCACHED_SUCCESS (str "7\r\n") 0)
      text_client (str "counter") 4294967295 0 0 0 0 (by decide)).1,
   by decide⟩

/-! ## Binary decode -/

/-- C15: in a binary call that is not quiet and whose write succeeded, the response
reader is called exactly once, on the routed instance, with a sink of 8 bytes (the
value output), after the hashing and the write; the status returned is the status the
reader returned, whatever it is, and the value is what the reader left in the sink. -/
theorem binary_reader_status (K : Constants) (E : Collaborators) (ptr : memcached_st)
    (cmd : Nat) (master_key key : List Nat) (offset initial expiration value : Nat)
    (hhosts : ptr.number_of_hosts ≠ 0)
    (hquiet : ptr.no_reply = false)
    (hwrite : E.memcached_vdo (E.memcached_generate_hash_with_redistribution ptr master_key)
      (binary_vector K ptr cmd key offset initial expiration) = MEMCACHED_SUCCESS) :
    reads (binary_incr_decr K E ptr cmd master_key key offset initial expiration value).trace
      = [(E.memcached_generate_hash_with_redistribution ptr master_key, 8)] ∧
    (binary_incr_decr K E ptr cmd master_key key offset initial expiration value).trace
      = [Event.hash master_key,
         Event.vsend (E.memcached_generate_hash_with_redistribution ptr master_key)
           (binary_vector K ptr cmd key offset initial expiration),
         Event.recv (E.memcached_generate_hash_with_redistribution ptr master_key) 8] ∧
    (binary_incr_decr K E ptr cmd master_key key offset initial expiration value).rc
      = (E.memcached_response_value
          (E.memcached_generate_hash_with_redistribution ptr master_key) value).1 ∧
    (binary_incr_decr K E ptr cmd master_key key offset initial expiration value).value
      = (E.memcached_response_value
          (E.memcached_generate_hash_with_redistribution ptr master_key) value).2 := by
  unfold binary_incr_decr
  rw [if_neg hhosts]
  simp [hwrite, hquiet, reads]

/-- C15, at an increment whose reader reports not_found: the call returns
not_found. -/
theorem binary_reader_status_witness :
    (binary_client.number_of_hosts ≠ 0 ∧ binary_client.no_reply = false) ∧
    reads (binary_incr_decr library_constants (stub MEMCACHED_SUCCESS MEMCACHED_NOTFOUND [] 0)
        binary_client library_constants.PROTOCOL_BINARY_CMD_INCREMENT [1] (str "counter")
        1 0 0 7).trace = [(1, 8)] ∧
    (binary_incr_decr library_constants (stub MEMCACHED_SUCCESS MEMCACHED_NOTFOUND [] 0)
        binary_client library_constants.PROTOCOL_BINARY_CMD_INCREMENT [1] (str "counter")
        1 0 0 7).rc = MEMCACHED_NOTFOUND :=
  have h := binary_reader_status library_constants
    (stub MEMCACHED_SUCCESS MEMCACHED_NOTFOUND [] 0)
    binary_client library_constants.PROTOCOL_BINARY_CMD_INCREMENT [1] (str "counter")
    1 0 0 7 (by decide) rfl rfl
  ⟨⟨by decide, rfl⟩, h.1, h.2.2.1⟩

/-! ## Malformed text lines -/

/-- C16: in a text call that is not quiet and whose send succeeded, a response buffer
that begins with none of `ERROR\r\n`, `CLIENT_ERROR\r\n`, `NOT_FOUND\r\n` and that,
after its leading white space, shows neither a decimal digit nor a sign followed by a
decimal digit, gives success with value 0. -/
theorem malformed_text_line (K : Constants) (E : Collaborators) (ptr : memcached_st)
    (verb master_key key : List Nat) (offset value : Nat)
    (hsends : TextSends K E ptr verb key offset)
    (hquiet : ptr.no_reply = false)
    (hsend : E.memcached_do (E.memcached_generate_hash_with_redistribution ptr master_key)
      (text_request ptr verb key offset) = MEMCACHED_SUCCESS)
    (h1 : ¬ str "ERROR\r\n" <+: text_response K E ptr verb master_key key offset)
    (h2 : ¬ str "CLIENT_ERROR\r\n" <+: text_response K E ptr verb master_key key offset)
    (h3 : ¬ str "NOT_FOUND\r\n" <+: text_response K E ptr verb master_key key offset)
    (h4 : starts_numeral (text_response K E ptr verb master_key key offset) = false) :
    (text_incr_decr K E ptr verb master_key key offset value).rc = MEMCACHED_SUCCESS ∧
    (text_incr_decr K E ptr verb master_key key offset value).value = 0 := by
  rw [text_incr_decr_decodes K E ptr verb master_key key offset value hsends hquiet hsend,
    classify_no_numeral _ h1 h2 h3 h4]
  exact ⟨rfl, rfl⟩

/-- C16, at the replies `SERVER_ERROR out of memory\r\n` and ` -x\r\n`. -/
theorem malformed_text_line_witness :
    starts_numeral (str "SERVER_ERROR out of memory\r\n") = false ∧
    (text_incr_decr library_constants
        (stub MEMCACHED_SUCCESS MEMCACHED_SUCCESS (str "SERVER_ERROR out of memory\r\n") 0)
        text_client (str "incr") (str "counter") (str "counter") 1 9).rc = MEMCACHED_SUCCESS ∧
    (text_incr_decr library_constants
        (stub MEMCACHED_SUCCESS MEMCACHED_SUCCESS (str "SERVER_ERROR out of memory\r\n") 0)
        text_client (str "incr") (str "counter") (str "counter") 1 9).value = 0 ∧
    (text_incr_decr library_constants
        (stub MEMCACHED_SUCCESS MEMCACHED_SUCCESS (str " -x\r\n") 0)
        text_client (str "incr") (str "counter") (str "counter") 1 9).value = 0 :=
  have h := malformed_text_line library_constants
    (stub MEMCACHED_SUCCESS MEMCACHED_SUCCESS (str "SERVER_ERROR out of memory\r\n") 0)
    text_client (str "incr") (str "counter") (str "counter") 1 9
    (by decide) rfl rfl (by decide) (by decide) (by decide) (by decide)
  ⟨by decide, h.1, h.2,
   (malformed_text_line library_constants
      (stub MEMCACHED_SUCCESS MEMCACHED_SUCCESS (str " -x\r\n") 0)
      text_client (str "incr") (str "counter") (str "counter") 1 9
      (by decide) rfl rfl (by decide) (by decide) (by decide) (by decide)).2⟩

/-! ## The status of the reader in the text path -/

/-- C17: in a text call that is not quiet and whose send succeeded, the status
returned is protocol_error, not_found or success, and status and value are those the
decoder reads off the response buffer, whatever status the response reader returned;
when the reader leaves the buffer as it was, the buffer holds the request line, which
starts with the verb `incr` or `decr` and a blank, and the call returns success with
value 0. -/
theorem text_reader_status_discarded (K : Constants) (E : Collaborators) (ptr : memcached_st)
    (verb master_key key : List Nat) (offset value : Nat)
    (hsends : TextSends K E ptr verb key offset)
    (hquiet : ptr.no_reply = false)
    (hsend : E.memcached_do (E.memcached_generate_hash_with_redistribution ptr master_key)
      (text_request ptr verb key offset) = MEMCACHED_SUCCESS) :
    ((text_incr_decr K E ptr verb master_key key offset value).rc = MEMCACHED_PROTOCOL_ERROR ∨
      (text_incr_decr K E ptr verb master_key key offset value).rc = MEMCACHED_NOTFOUND ∨
      (text_incr_decr K E ptr verb master_key key offset value).rc = MEMCACHED_SUCCESS) ∧
    ((text_incr_decr K E ptr verb master_key key offset value).rc,
        (text_incr_decr K E ptr verb master_key key offset value).value)
      = text_classify (text_response K E ptr verb master_key key offset) ∧
    ((verb = str "incr" ∨ verb = str "decr") →
      text_response K E ptr verb master_key key offset = text_request ptr verb key offset →
      (verb ++ str " ") <+: text_response K E ptr verb master_key key offset ∧
      (text_incr_decr K E ptr verb master_key key offset value).rc = MEMCACHED_SUCCESS ∧
      (text_incr_decr K E ptr verb master_key key offset value).value = 0) := by
  rw [text_incr_decr_decodes K E ptr verb master_key key offset value hsends hquiet hsend]
  refine ⟨classify_status _, rfl, ?_⟩
  intro hverb hsame
  obtain ⟨rest, hrest⟩ := text_request_starts_with_verb ptr verb key offset hverb
  have hsp : str " " = [32] := by decide
  rw [hsame, hrest, classify_verb_line verb rest hverb, hsp]
  exact ⟨⟨rest, by simp⟩, rfl, rfl⟩

/-- C17, at a reader that reports a failure and leaves the request line
`incr ns:counter 1\r\n` in the buffer: the call returns success with value 0. -/
theorem text_reader_status_discarded_witness :
    (stub MEMCACHED_SUCCESS (MEMCACHED_OTHER 1) (str "incr ns:counter 1\r\n") 0).memcached_response
        0 (text_request text_client (str "incr") (str "counter") 1) 350
      = (MEMCACHED_OTHER 1, text_request text_client (str "incr") (str "counter") 1) ∧
    (text_incr_decr library_constants
        (stub MEMCACHED_SUCCESS (MEMCACHED_OTHER 1) (str "incr ns:counter 1\r\n") 0)
        text_client (str "incr") (str "counter") (str "counter") 1 9).rc = MEMCACHED_SUCCESS ∧
    (text_incr_decr library_constants
        (stub MEMCACHED_SUCCESS (MEMCACHED_OTHER 1) (str "incr ns:counter 1\r\n") 0)
        text_client (str "incr") (str "counter") (str "counter") 1 9).value = 0 :=
  have h := (text_reader_status_discarded library_constants
    (stub MEMCACHED_SUCCESS (MEMCACHED_OTHER 1) (str "incr ns:counter 1\r\n") 0)
    text_client (str "incr") (str "counter") (str "counter") 1 9
    (by decide) rfl rfl).2.2 (Or.inl rfl) (by decide)
  ⟨by decide, h.2.1, h.2.2⟩

/-! ## Length fields under truncation -/

/-- C18: in the request `binary_incr_decr` writes, the key-length field is
(key_length + prefix_length) mod 2^16 and the body-length field is
(key_length + prefix_length + 20) mod 2^32; for sums below 2^32 - 20 the body-length
field equals the key-length field + 20 if and only if key_length + prefix_length
< 65536; and the key-length field equals the total length of the second and third
segments if and only if key_length + prefix_length < 65536. -/
theorem header_length_fields (K : Constants) (E : Collaborators) (ptr : memcached_st)
    (cmd : Nat) (master_key key : List Nat) (offset initial expiration value : Nat)
    (hhosts : ptr.number_of_hosts ≠ 0) :
    sent_vectors (binary_incr_decr K E ptr cmd master_key key offset initial expiration value).trace
      = [[request_bytes (binary_request K ptr cmd key offset initial expiration),
          ptr.prefix_key, key]] ∧
    frame_keylen (request_bytes (binary_request K ptr cmd key offset initial expiration))
      = (key.length + ptr.prefix_key.length) % 2 ^ 16 ∧
    frame_bodylen (request_bytes (binary_request K ptr cmd key offset initial expiration))
      = (key.length + ptr.prefix_key.length + 20) % 2 ^ 32 ∧
    (key.length + ptr.prefix_key.length < 2 ^ 32 - 20 →
      (frame_bodylen (request_bytes (binary_request K ptr cmd key offset initial expiration))
          = frame_keylen (request_bytes (binary_request K ptr cmd key offset initial expiration))
            + 20
        ↔ key.length + ptr.prefix_key.length < 65536)) ∧
    (frame_keylen (request_bytes (binary_request K ptr cmd key offset initial expiration))
        = ptr.prefix_key.length + key.length
      ↔ key.length + ptr.prefix_key.length < 65536) := by
  have hk : frame_keylen (request_bytes (binary_request K ptr cmd key offset initial expiration))
      = (key.length + ptr.prefix_key.length) % 2 ^ 16 := by
    rw [frame_keylen_request]
    simp [binary_request]
  have hb : frame_bodylen (request_bytes (binary_request K ptr cmd key offset initial expiration))
      = (key.length + ptr.prefix_key.length + 20) % 2 ^ 32 := by
    rw [frame_bodylen_request]
    simp [binary_request]
  refine ⟨?_, hk, hb, ?_, ?_⟩
  · rw [binary_incr_decr_sent_vectors K E ptr cmd master_key key offset initial expiration
      value hhosts]
    rfl
  · intro hsum
    rw [hk, hb]
    omega
  · rw [hk]
    omega

/-- C18, at a key of 65535 bytes under the prefix `ns:`: the key-length field holds
2 and the body-length field holds 65558. -/
theorem header_length_fields_witness :
    binary_client.number_of_hosts ≠ 0 ∧
    frame_keylen (request_bytes (binary_request library_constants binary_client
        library_constants.PROTOCOL_BINARY_CMD_INCREMENT (List.replicate 65535 97) 1 0 0))
      = ((List.replicate 65535 97).length + binary_client.prefix_key.length) % 2 ^ 16 ∧
    ((List.replicate 65535 97).length + binary_client.prefix_key.length) % 2 ^ 16 = 2 :=
  ⟨by decide,
   (header_length_fields library_constants (stub MEMCACHED_SUCCESS MEMCACHED_SUCCESS [] 0)
      binary_client library_constants.PROTOCOL_BINARY_CMD_INCREMENT (str "other")
      (List.replicate 65535 97) 1 0 0 0 (by decide)).2.1,
   by rw [List.length_replicate]; decide⟩

/-! ## Plain and with-initial encodings -/

/-- C19: in binary mode, for every public operation that reaches the write (accepted
key length, non-empty cluster), the delta field of the request is the caller's delta
(32 bits for `memcached_increment` and `memcached_decrement`, 64 bits for the other
forms); the plain forms encode initial = 0 and expiration =
MEMCACHED_EXPIRATION_NOT_ADD, whatever the inputs; the with_initial forms encode the
caller's 64-bit initial and the caller's expiration reduced modulo 2^32. -/
theorem plain_versus_with_initial (op : PublicOp) (K : Constants) (E : Collaborators)
    (ptr : memcached_st) (master_key key : List Nat) (offset initial : Nat)
    (expiration : Int) (value : Nat)
    (hsentinel : K.MEMCACHED_EXPIRATION_NOT_ADD < 2 ^ 32)
    (hbin : ptr.binary_protocol = true)
    (hvalid : memcached_validate_key_length K key.length ptr.binary_protocol = MEMCACHED_SUCCESS)
    (hhosts : ptr.number_of_hosts ≠ 0)
    (hoffset : offset < 2 ^ op.delta_bits)
    (hinitial : initial < 2 ^ 64) :
    (sent_frames (op.call K E ptr master_key key offset initial expiration value).trace).map
        frame_delta = [offset] ∧
    (sent_frames (op.call K E ptr master_key key offset initial expiration value).trace).map
        frame_initial = [if op.with_initial then initial else 0] ∧
    (sent_frames (op.call K E ptr master_key key offset initial expiration value).trace).map
        frame_expiration
      = [if op.with_initial then (expiration % 2 ^ 32).toNat
          else K.MEMCACHED_EXPIRATION_NOT_ADD] := by
  rw [call_binary op K E ptr master_key key offset initial expiration value hbin hvalid]
  unfold sent_frames
  rw [binary_incr_decr_sent_vectors _ _ _ _ _ _ _ _ _ _ hhosts]
  simp only [List.map_cons, List.map_nil, binary_vector, List.headD_cons,
    frame_delta_request, frame_initial_request, frame_expiration_request]
  have hexp : (expiration % 2 ^ 32).toNat < 2 ^ 32 := by
    have h1 : expiration % 2 ^ 32 < 2 ^ 32 := Int.emod_lt_of_pos _ (by norm_num)
    have h0 : 0 ≤ expiration % 2 ^ 32 := Int.emod_nonneg _ (by norm_num)
    omega
  have hdelta : op.offset_arg offset % 2 ^ 64 = offset := by
    cases op <;> simp only [PublicOp.offset_arg, PublicOp.delta_bits] at hoffset ⊢ <;> omega
  refine ⟨?_, ?_, ?_⟩
  · simp only [binary_request]
    rw [hdelta]
  · simp only [binary_request, PublicOp.initial_arg]
    cases op.with_initial
    · simp
    · simp only [if_true]
      rw [Nat.mod_eq_of_lt hinitial]
  · simp only [binary_request, PublicOp.expiration_arg]
    cases op.with_initial
    · simp only [Bool.false_eq_true, if_false, Nat.mod_mod]
      rw [Nat.mod_eq_of_lt hsentinel]
    · simp only [if_true, Nat.mod_mod]
      rw [Nat.mod_eq_of_lt hexp]

/-- C19, at `memcached_increment` with the largest 32-bit delta, at
`memcached_increment_by_key` (initial 0, expiration 0xffffffff) and at
`memcached_decrement_with_initial_by_key` with initial 3 and expiration -1, which
is sent as 4294967295. -/
theorem plain_versus_with_initial_witness :
    (library_constants.MEMCACHED_EXPIRATION_NOT_ADD < 2 ^ 32 ∧
      memcached_validate_key_length library_constants (str "counter").length true
        = MEMCACHED_SUCCESS ∧
      (4294967295 : Nat) < 2 ^ PublicOp.increment.delta_bits) ∧
    (sent_frames (memcached_increment library_constants
        (stub MEMCACHED_SUCCESS MEMCACHED_SUCCESS [] 0) binary_client
        (str "counter") 4294967295 0).trace).map frame_delta = [4294967295] ∧
    (sent_frames (memcached_increment_by_key library_constants
        (stub MEMCACHED_SUCCESS MEMCACHED_SUCCESS [] 0) binary_client
        (str "other") (str "counter") 258 0).trace).map frame_expiration = [0xffffffff] ∧
    (sent_frames (memcached_decrement_with_initial_by_key library_constants
        (stub MEMCACHED_SUCCESS MEMCACHED_SUCCESS [] 0) binary_client
        (str "other") (str "counter") 258 3 (-1) 0).trace).map frame_expiration
      = [4294967295] :=
  ⟨⟨by decide, by decide, by decide⟩,
   (plain_versus_with_initial PublicOp.increment library_constants
      (stub MEMCACHED_SUCCESS MEMCACHED_SUCCESS [] 0) binary_client
      [] (str "counter") 4294967295 0 0 0
      (by decide) rfl (by decide) (by decide) (by decide) (by decide)).1,
   (plain_versus_with_initial PublicOp.increment_by_key library_constants
      (stub MEMCACHED_SUCCESS MEMCACHED_SUCCESS [] 0) binary_client
      (str "other") (str "counter") 258 7 60 0
      (by decide) rfl (by decide) (by decide) (by decide) (by decide)).2.2,
   (plain_versus_with_initial PublicOp.decrement_with_initial_by_key library_constants
      (stub MEMCACHED_SUCCESS MEMCACHED_SUCCESS [] 0) binary_client
      (str "other") (str "counter") 258 3 (-1) 0
      (by decide) rfl (by decide) (by decide) (by decide) (by decide)).2.2⟩

end Auto
